import Mathlib

/-!
Shallow embedding of the request-understanding core of the repository
(`app/classifier/layer.py`, `app/agents/supervisor.py`,
`app/knowledge/property_memory.py`, `app/tools.py`) together with proofs
about the specified behaviour.

Modelling conventions:
* Python strings are Lean `String`s; the ASCII-level primitives the code
  uses (`str.lower`, `str.strip`, `in` substring tests, `str.startswith`)
  are re-implemented over `List Char` so that every definition is
  executable by the kernel.
* Python `None`/`""`/`[]` truthiness is modelled explicitly with the
  `truthyStr` / `truthyInt` / `listOr` / `strOr` / `orElseStr` helpers.
* Calls into external collaborators (the optional LLM, scikit-learn's
  TF-IDF vectorizer, the OpenAI embedding client, the regex extraction
  primitives, the pandas dataset) are modelled as explicit oracle
  parameters: every theorem quantifies over all possible behaviours of
  those collaborators.
* Python floats are modelled as rationals `ℚ`.
-/

namespace Cortex

/-! ### ASCII text primitives (models of `str.lower`, `str.strip`, `in`, `str.startswith`) -/

def lowerChar (c : Char) : Char :=
  if c.toNat ≥ 65 ∧ c.toNat ≤ 90 then Char.ofNat (c.toNat + 32) else c

def upperChar (c : Char) : Char :=
  if c.toNat ≥ 97 ∧ c.toNat ≤ 122 then Char.ofNat (c.toNat - 32) else c

/-- Model of Python `str.lower()` (ASCII fragment). -/
def lowerString (s : String) : String :=
  String.mk (s.toList.map lowerChar)

/-- Model of Python `str.upper()` (ASCII fragment). -/
def upperString (s : String) : String :=
  String.mk (s.toList.map upperChar)

def isPrefixChars : List Char → List Char → Bool
  | [], _ => true
  | _ :: _, [] => false
  | p :: ps, c :: cs => p = c && isPrefixChars ps cs

def isSubChars (pat : List Char) : List Char → Bool
  | [] => isPrefixChars pat []
  | c :: cs => isPrefixChars pat (c :: cs) || isSubChars pat cs

/-- Model of the Python substring test `pat in s`. -/
def containsSub (s pat : String) : Bool :=
  isSubChars pat.toList s.toList

/-- Model of Python `s.startswith(pre)`. -/
def startsWithStr (s pre : String) : Bool :=
  isPrefixChars pre.toList s.toList

def pyStripChars (s : List Char) : List Char :=
  ((s.dropWhile Char.isWhitespace).reverse.dropWhile Char.isWhitespace).reverse

/-- Model of Python `str.strip()`. -/
def pyStrip (s : String) : String := String.mk (pyStripChars s.toList)

/-! ### Python truthiness helpers -/

/-- Truthiness of an optional Python string (`None` and `""` are falsy). -/
def truthyStr (o : Option String) : Bool :=
  match o with
  | some s => s ≠ ""
  | none => false

/-- Truthiness of an optional Python int (`None` and `0` are falsy). -/
def truthyInt (o : Option Int) : Bool :=
  match o with
  | some i => i ≠ 0
  | none => false

/-- Model of Python `a or b` for strings. -/
def strOr (a b : String) : String := if a = "" then b else a

/-- Model of Python `a or b` for optional strings. -/
def orElseStr (a b : Option String) : Option String :=
  if truthyStr a then a else b

/-- Model of Python `a or b` for lists. -/
def listOr {α : Type} (a b : List α) : List α := if a.isEmpty then b else a

def dedupAux (seen : List String) : List String → List String
  | [] => []
  | x :: xs => if seen.contains x then dedupAux seen xs else x :: dedupAux (x :: seen) xs

/-- Model of Python `list(dict.fromkeys(l))`: removes duplicates keeping first occurrences. -/
def dedup (l : List String) : List String := dedupAux [] l

/-! ### Classification layer (`app/classifier/layer.py`)

The regex machinery of the module (`_extract_addresses`, `_extract_periods`,
the compiled `_TENANT_PATTERN` and `_GENERAL_QUESTION_PATTERN` searches) is
pure text processing whose internals none of the verified claims depend on;
it is modelled as an oracle record so the theorems hold for every possible
behaviour of those primitives.  The optional LLM call of
`ClassificationLayer.classify` is modelled as an `Option ClassificationResult`
argument (`none` covers a disabled model, a network failure and malformed
JSON, exactly the cases in which `_invoke_llm` returns `None`). -/

def REQUEST_TYPE_VALUES : List String :=
  ["pnl", "asset_details", "price_comparison", "general", "unsupported"]

def P_AND_L_KEYWORDS : List String :=
  ["p&l", "pnl", "profit and loss", "net operating income", "noi",
   "revenue", "expense", "expenses", "income"]

def PRICE_KEYWORDS : List String := ["price", "worth", "value", "valuation"]

def ASSET_DETAIL_KEYWORDS : List String :=
  ["list", "show", "tell me about", "which properties", "tenants", "tenant", "property"]

def COMPARISON_WORDS : List String := ["compare", "versus", "vs", "difference", "between"]

/-- Mirror of the `ClassificationResult` dataclass. -/
structure ClassificationResult where
  request_type : String := "general"
  addresses : List String := []
  period : Option String := none
  comparison_periods : List String := []
  missing_fields : List String := []
  clarifications_needed : Bool := false
deriving DecidableEq, Repr

/-- The boolean signals computed by `_baseline_classification` and consumed by
`_apply_overrides` (the `hints` dict of the source). -/
structure ClassifierHints where
  has_pnl : Bool
  has_property : Bool
  has_period : Bool
  has_compare_word : Bool
deriving DecidableEq, Repr

/-- Oracle for the regex primitives used by `_baseline_classification`:
`_extract_addresses`, `_extract_periods`, `_TENANT_PATTERN.search` and
`_GENERAL_QUESTION_PATTERN.search`. -/
structure ClassifierTextEnv where
  extract_addresses : String → List String
  extract_periods : String → List String
  tenant_pattern_search : String → Bool
  general_question_search : String → Bool

/-- Mirror of `_baseline_classification`. -/
def baselineClassification (env : ClassifierTextEnv) (user_input : String) :
    ClassificationResult × ClassifierHints :=
  let lowered := lowerString user_input
  let addresses := env.extract_addresses user_input
  let periods := env.extract_periods user_input
  let has_compare_word := COMPARISON_WORDS.any (fun marker => containsSub lowered marker)
  let comparison_periods := if has_compare_word ∧ periods.length ≥ 2 then periods.take 2 else []
  let period : Option String := if comparison_periods.isEmpty then periods.head? else none
  let has_pnl := P_AND_L_KEYWORDS.any (fun keyword => containsSub lowered keyword)
  let has_price := PRICE_KEYWORDS.any (fun keyword => containsSub lowered keyword)
  let has_property := ¬addresses.isEmpty ∨ env.tenant_pattern_search lowered
  let has_period := truthyStr period ∨ comparison_periods.length = 2
  let general_question := env.general_question_search lowered
  let has_asset_detail_term := ASSET_DETAIL_KEYWORDS.any (fun keyword => containsSub lowered keyword)
  let general_only := general_question ∧ ¬has_property ∧ ¬has_period
  let request_type : String :=
    if general_only then "general"
    else if has_pnl then "pnl"
    else if has_compare_word ∧ addresses.length ≥ 2 then "price_comparison"
    else if has_price then "price_comparison"
    else if has_asset_detail_term ∧ has_property then "asset_details"
    else "general"
  ({ request_type, addresses, period, comparison_periods },
   { has_pnl, has_property, has_period, has_compare_word })

/-- Mirror of `_apply_overrides` (the `user_input` parameter is unused in the
source body as well). -/
def applyOverrides (_user_input : String) (primary baseline : ClassificationResult)
    (hints : ClassifierHints) : ClassificationResult :=
  let result : ClassificationResult :=
    { request_type := strOr primary.request_type baseline.request_type
      addresses := listOr primary.addresses baseline.addresses
      period := orElseStr primary.period baseline.period
      comparison_periods := listOr primary.comparison_periods baseline.comparison_periods
      missing_fields := primary.missing_fields
      clarifications_needed := primary.clarifications_needed }
  let result :=
    if REQUEST_TYPE_VALUES.contains result.request_type then result
    else { result with request_type := baseline.request_type }
  let result :=
    if result.addresses.isEmpty ∧ ¬baseline.addresses.isEmpty then
      { result with addresses := baseline.addresses }
    else result
  let result :=
    if (result.comparison_periods.isEmpty ∨ result.comparison_periods.length ≠ 2) ∧
        baseline.comparison_periods.length = 2 then
      { result with comparison_periods := baseline.comparison_periods }
    else result
  let result :=
    if ¬result.comparison_periods.isEmpty ∧ result.comparison_periods.length = 2 then
      { result with period := none }
    else if ¬truthyStr result.period ∧ truthyStr baseline.period then
      { result with period := baseline.period }
    else result
  let hard_rule_applies :=
    hints.has_pnl ∧ hints.has_property ∧
      (hints.has_period ∨ result.comparison_periods.length = 2)
  let result := if hard_rule_applies then { result with request_type := "pnl" } else result
  let result :=
    if result.request_type = "" then { result with request_type := baseline.request_type }
    else result
  let result :=
    if REQUEST_TYPE_VALUES.contains result.request_type then result
    else { result with request_type := "general" }
  let result := { result with missing_fields := dedup (result.missing_fields ++ baseline.missing_fields) }
  { result with
      clarifications_needed := result.clarifications_needed ∨ ¬result.missing_fields.isEmpty }

/-- Mirror of `_compute_missing_fields` (the source mutates `result` in place;
here the updated record is returned). -/
def computeMissingFields (result : ClassificationResult) : ClassificationResult :=
  let missing : List String :=
    if result.request_type = "pnl" then
      (if result.addresses.isEmpty then ["property"] else []) ++
        (if ¬truthyStr result.period ∧ result.comparison_periods.length ≠ 2 then ["period"] else [])
    else []
  let missing_fields := dedup (listOr missing result.missing_fields)
  { result with missing_fields, clarifications_needed := ¬missing_fields.isEmpty }

/-- Mirror of `ClassificationLayer.classify`: baseline pass, optional LLM
result (`llm_result = none` when the model is disabled, unreachable, or its
payload is malformed), override pass, missing-field pass. -/
def classifyLayer (env : ClassifierTextEnv) (llm_result : Option ClassificationResult)
    (user_input : String) : ClassificationResult :=
  let baseline := baselineClassification env user_input
  let result := llm_result.getD baseline.1
  let final := applyOverrides user_input result baseline.1 baseline.2
  computeMissingFields final

/-! ### Request types (`app/agents/request_types.py`) -/

/-- Mirror of the `RequestType` string enum. -/
inductive RequestType where
  | price_comparison
  | pnl
  | asset_details
  | general
  | clarification
deriving DecidableEq, Repr

/-- The `.value` of each enum member. -/
def RequestType.value : RequestType → String
  | .price_comparison => "price_comparison"
  | .pnl => "pnl"
  | .asset_details => "asset_details"
  | .general => "general"
  | .clarification => "clarification"

/-- Mirror of `RequestType._value2member_map_` lookup. -/
def requestTypeOfValue (text : String) : Option RequestType :=
  if text = "price_comparison" then some .price_comparison
  else if text = "pnl" then some .pnl
  else if text = "asset_details" then some .asset_details
  else if text = "general" then some .general
  else if text = "clarification" then some .clarification
  else none

/-- Mirror of the `REQUEST_ALIASES` table. -/
def REQUEST_ALIASES : List (String × RequestType) :=
  [("price", .price_comparison), ("compare", .price_comparison),
   ("comparison", .price_comparison), ("p&l", .pnl), ("pnl", .pnl),
   ("profit", .pnl), ("loss", .pnl), ("asset_details", .asset_details),
   ("details", .asset_details), ("asset", .asset_details),
   ("question", .clarification), ("clarification", .clarification),
   ("general", .general)]

/-- Mirror of `normalize_request_type` restricted to string/None inputs (the
`isinstance(value, RequestType)` branch is subsumed by the typed model). -/
def normalizeRequestType (value : Option String)
    (default : RequestType := .general) : RequestType :=
  match value with
  | none => default
  | some v =>
    let text := lowerString (pyStrip v)
    if text = "" then default
    else
      match requestTypeOfValue text with
      | some rt => rt
      | none =>
        match REQUEST_ALIASES.find? (fun p => p.1 = text) with
        | some p => p.2
        | none => default

/-- The `measurement_id` field of each `REQUEST_REGISTRY` entry. -/
def requestMeasurementId : RequestType → String
  | .price_comparison => "req_price_comparison"
  | .pnl => "req_pnl"
  | .asset_details => "req_asset_detail"
  | .general => "req_general"
  | .clarification => "req_clarification"

/-! ### Supervisor data model (`app/agents/supervisor.py`, `app/graph/state.py`) -/

/-- Mirror of the dict returned by `tools.extract_period_hint`. -/
structure PeriodInfo where
  label : Option String := none
  level : Option String := none
  year : Option Int := none
  quarter : Option String := none
  month : Option String := none
deriving DecidableEq, Repr

/-- Mirror of the period dicts built by `_comparison_payload_from_label`
(the `quarter`/`month` keys are only present when truthy in the source; an
absent key is modelled as `none`, matching every `.get` read). -/
structure PeriodPayload where
  label : String
  level : String
  year : Int
  quarter : Option String := none
  month : Option String := none
deriving DecidableEq, Repr

def digitVal (c : Char) : Nat := c.toNat - 48

def isDigitChar (c : Char) : Bool := 48 ≤ c.toNat ∧ c.toNat ≤ 57

/-- Mirror of `_interpret_period_label`.  The three anchored regexes
`^(20\d{2})$`, `^(20\d{2})-M(\d{2})$` and `^(20\d{2})-(Q[1-4])$` are decided
by full pattern matches on the character list of the upper-cased input.
Returns `(normalized, level, year, quarter, month)`. -/
def interpretPeriodLabel (label : Option String) :
    Option String × Option String × Option Int × Option String × Option String :=
  match label with
  | none => (none, none, none, none, none)
  | some l =>
    let text := pyStrip l
    if text = "" then (none, none, none, none, none)
    else
      let candidate := upperString text
      let fallback := (some candidate, (none : Option String), (none : Option Int),
        (none : Option String), (none : Option String))
      match candidate.toList with
      | ['2', '0', a, b, '-', 'M', c, d] =>
        if isDigitChar a ∧ isDigitChar b ∧ isDigitChar c ∧ isDigitChar d then
          let year : Int := 2000 + 10 * (digitVal a : Int) + (digitVal b : Int)
          let normalized := String.mk ['2', '0', a, b, '-', 'M', c, d]
          (some normalized, some "month", some year, none, some normalized)
        else fallback
      | ['2', '0', a, b, '-', 'Q', q] =>
        if isDigitChar a ∧ isDigitChar b ∧ (q = '1' ∨ q = '2' ∨ q = '3' ∨ q = '4') then
          let year : Int := 2000 + 10 * (digitVal a : Int) + (digitVal b : Int)
          let normalized := String.mk ['2', '0', a, b, '-', 'Q', q]
          (some normalized, some "quarter", some year, some normalized, none)
        else fallback
      | ['2', '0', a, b] =>
        if isDigitChar a ∧ isDigitChar b then
          let year : Int := 2000 + 10 * (digitVal a : Int) + (digitVal b : Int)
          (some (String.mk ['2', '0', a, b]), some "year", some year, none, none)
        else fallback
      | _ => fallback

/-- Mirror of `_comparison_payload_from_label`. -/
def comparisonPayloadFromLabel (label : String) : Option PeriodPayload :=
  match interpretPeriodLabel (some label) with
  | (some normalized, some level, some year, quarter, month) =>
    if normalized = "" then none
    else some { label := normalized, level, year, quarter, month }
  | _ => none

/-- Mirror of the `PropertyMatch` dataclass of
`app/knowledge/property_memory.py` (metadata dicts become association
lists). -/
structure PropertyMatch where
  address : String
  property_name : Option String := none
  confidence : ℚ := 0
  rank : Nat := 0
  reason : String := ""
  metadata : List (String × Option String) := []
deriving DecidableEq, Repr

/-- Mirror of the dict produced by `SupervisorAgent._serialize_match`. -/
structure SerializedMatch where
  address : String
  property_name : Option String
  confidence : ℚ
  reason : String
  metadata : List (String × Option String)
deriving DecidableEq, Repr

def serializeMatch (m : PropertyMatch) : SerializedMatch :=
  { address := m.address, property_name := m.property_name,
    confidence := m.confidence, reason := m.reason, metadata := m.metadata }

/-- Model of Python `dict.get` on the association-list metadata (an absent
key and a stored `None` both read back as `none`, exactly as every use site
distinguishes them — namely not at all). -/
def metaGet (meta : List (String × Option String)) (key : String) : Option String :=
  match meta.find? (fun p => p.1 = key) with
  | some p => p.2
  | none => none

/-- Mirror of the `PropertyResolution` dataclass of `app/tools.py`. -/
structure PropertyResolution where
  matches' : List PropertyMatch := []
  candidate_terms : List String := []
  unresolved_terms : List String := []
  missing_assets : List String := []
deriving DecidableEq, Repr

/-- Mirror of the `IntentParseResult` dataclass of
`app/agents/intent_parser.py` (only the fields the supervisor reads). -/
structure IntentParseResult where
  request_type : RequestType := .general
  address_terms : List String := []
  comparison_markers : List String := []
  entity_name : Option String := none
  tenant_name : Option String := none
  notes : List String := []
  needs_clarification : Bool := false
  missing_fields : List String := []
deriving DecidableEq, Repr

/-- Modelled from the spec: the `ClarificationItem` record.  The supervisor
and the test-suite import it from `app.graph.state`, but that module as
present under `src/` does not declare it; the fields follow section 3 of the
specification (`field`, `question`, `kind`, `options`, `value`). -/
structure ClarificationItem where
  field : String
  question : String := ""
  kind : String := "value"
  options : List String := []
  value : String := ""
deriving DecidableEq, Repr

/-- Mirror of the `QueryContext` dataclass of `app/graph/state.py`.  The
four trailing fields (`aggregation_level`, `clarifications`,
`awaiting_user_reply`, `clarification_needed`) are modelled from the spec:
the supervisor and the test-suite read and write them on `QueryContext`
instances, but the dataclass as present under `src/` does not declare
them. -/
structure QueryContext where
  user_input : String
  request_type : RequestType := .general
  addresses : List String := []
  suggested_addresses : List String := []
  address_matches : List SerializedMatch := []
  candidate_terms : List String := []
  unresolved_terms : List String := []
  missing_addresses : List String := []
  notes : List String := []
  period : Option String := none
  period_level : Option String := none
  entity_name : Option String := none
  property_name : Option String := none
  tenant_name : Option String := none
  year : Option Int := none
  quarter : Option String := none
  month : Option String := none
  needs_clarification : Bool := false
  clarification_reasons : List String := []
  request_measurement : Option String := none
  comparison_periods : List PeriodPayload := []
  aggregation_level : Option String := none
  clarifications : List ClarificationItem := []
  awaiting_user_reply : Bool := false
  clarification_needed : Bool := false
deriving DecidableEq, Repr

/-- Mirror of the `SupervisorDecision` dataclass. -/
structure SupervisorDecision where
  request_type : RequestType
  addresses : List String := []
  address_matches : List SerializedMatch := []
  suggested_addresses : List String := []
  candidate_terms : List String := []
  unresolved_terms : List String := []
  missing_addresses : List String := []
  notes : List String := []
  period : Option String := none
  period_level : Option String := none
  entity_name : Option String := none
  property_name : Option String := none
  tenant_name : Option String := none
  tenant_candidates : List String := []
  missing_requirements : List String := []
  needs_clarification : Bool := false
  year : Option Int := none
  quarter : Option String := none
  month : Option String := none
  measurement_id : Option String := none
  comparison_periods : List PeriodPayload := []
  aggregation_level : Option String := none
  clarifications : List ClarificationItem := []
  awaiting_user_reply : Bool := false
deriving DecidableEq, Repr

/-- Oracle record for the collaborators `SupervisorAgent` calls out to:
the classification layer, the intent parser, and the `tools` helpers.
`extract_comparison_periods` is modelled from the spec (section 4.2): the
supervisor calls `tools.extract_comparison_periods(text, max_periods=2)`
but `app/tools.py` defines no such function, so its behaviour is an
arbitrary oracle returning normalized period payloads.
`comparison_regex` models the literal
`re.search(r"\b(compare|versus|vs\.?|between|difference)\b", text_lower)`
fallback. -/
structure SupervisorEnv where
  classify : String → ClassificationResult
  parse : String → IntentParseResult
  resolve_properties : String → Nat → PropertyResolution
  extract_period_hint : String → PeriodInfo
  extract_tenant_names : String → List String
  comparison_regex : String → Bool
  extract_comparison_periods : String → Nat → List PeriodPayload
  suggest_alternative_properties : List String → Nat → List String

/-! ### Supervisor state machine (`app/agents/supervisor.py`) -/

/-- Mirror of `SupervisorAgent._map_request_type` restricted to string/None
inputs (the `isinstance(value, RequestType)` branch is subsumed by the typed
model). -/
def mapRequestType (value : Option String) : RequestType :=
  match value with
  | none => .general
  | some v =>
    let normalized := lowerString (pyStrip v)
    if normalized = "" then .general
    else if normalized = "unsupported" then .clarification
    else normalizeRequestType (some normalized)

/-- Mirror of `SupervisorAgent._suggest_addresses` (the loop `append`s are
folded left over the matches, then over the `tools.suggest_alternative_properties`
extras). -/
def suggestAddresses (env : SupervisorEnv) (ms : List PropertyMatch)
    (resolved : List String) : List String :=
  let suggestions := ms.foldl
    (fun acc m =>
      let label :=
        match m.property_name with
        | some p => if p = "" then m.address else p
        | none => m.address
      if label ≠ "" ∧ ¬acc.contains label then acc ++ [label] else acc)
    []
  let remaining := 4 - suggestions.length
  if suggestions.length < 2 ∧ remaining ≠ 0 then
    (env.suggest_alternative_properties resolved remaining).foldl
      (fun acc extra => if ¬acc.contains extra then acc ++ [extra] else acc)
      suggestions
  else suggestions

/-- Mirror of `SupervisorAgent._has_period`. -/
def hasPeriodCtx (ctx : QueryContext) : Bool :=
  truthyStr ctx.period ∨ ctx.year.isSome ∨ truthyStr ctx.quarter ∨
    truthyStr ctx.month ∨ ¬ctx.comparison_periods.isEmpty

/-- Mirror of `SupervisorAgent._compute_missing_requirements` (the
follow-up path's recomputation of the missing requirements). -/
def computeMissingRequirements (ctx : QueryContext) : List String :=
  let missing : List String :=
    match ctx.request_type with
    | .pnl =>
      (if ¬truthyStr ctx.property_name then ["property"] else []) ++
        (if ¬hasPeriodCtx ctx then ["period"] else []) ++
        (if ¬ctx.comparison_periods.isEmpty ∧ ctx.comparison_periods.length ≠ 2 then
          ["comparison_periods"] else []) ++
        (if ¬truthyStr ctx.tenant_name ∧ ctx.aggregation_level = none then
          ["aggregation_level"] else [])
    | .asset_details => if ctx.addresses.isEmpty then ["property"] else []
    | .price_comparison => if ctx.addresses.length < 2 then ["second_property"] else []
    | _ => []
  dedup missing

/-- Mirror of `SupervisorAgent._normalize_aggregation_level`. -/
def normalizeAggregationLevel (answer : String) : Option String :=
  let normalized := lowerString (pyStrip answer)
  if startsWithStr normalized "tenant" then some "tenant"
  else if startsWithStr normalized "prop" then some "property"
  else if startsWithStr normalized "comb" ∨ startsWithStr normalized "port" ∨
      startsWithStr normalized "total" then some "combined"
  else none

/-- The two shapes of dict `SupervisorAgent._normalize_period_answer` can
return: the full `extract_period_hint` info, or a bare `granularity`. -/
inductive PeriodAnswer where
  | full (info : PeriodInfo)
  | granularity (g : String)
deriving DecidableEq, Repr

/-- Mirror of `SupervisorAgent._normalize_period_answer`. -/
def normalizePeriodAnswer (env : SupervisorEnv) (answer : String) :
    Option PeriodAnswer × Bool :=
  let info := env.extract_period_hint answer
  if truthyStr info.label then (some (.full info), false)
  else
    let normalized := lowerString (pyStrip answer)
    if normalized = "year" ∨ normalized = "annual" ∨ normalized = "yearly" then
      (some (.granularity "year"), true)
    else if normalized = "quarter" ∨ normalized = "quarterly" then
      (some (.granularity "quarter"), true)
    else if normalized = "month" ∨ normalized = "monthly" then
      (some (.granularity "month"), true)
    else (none, false)

/-- Mirror of `SupervisorAgent._apply_period_info`. -/
def applyPeriodInfo (ctx : QueryContext) (info : PeriodInfo) : QueryContext :=
  { ctx with period := info.label, period_level := info.level, year := info.year,
             quarter := info.quarter, month := info.month }

/-- Mirror of `SupervisorAgent._decision_from_context` (the
`isinstance(context.request_type, RequestType)` guard is subsumed by the
typed model). -/
def decisionFromContext (ctx : QueryContext) (missing : List String) : SupervisorDecision :=
  { request_type := ctx.request_type
    addresses := ctx.addresses
    address_matches := ctx.address_matches
    suggested_addresses := ctx.suggested_addresses
    candidate_terms := ctx.candidate_terms
    unresolved_terms := ctx.unresolved_terms
    missing_addresses := ctx.missing_addresses
    notes := ctx.notes
    period := ctx.period
    period_level := ctx.period_level
    entity_name := ctx.entity_name
    property_name := ctx.property_name
    tenant_name := ctx.tenant_name
    tenant_candidates := []
    missing_requirements := missing
    needs_clarification := ¬missing.isEmpty
    year := ctx.year
    quarter := ctx.quarter
    month := ctx.month
    measurement_id := ctx.request_measurement
    comparison_periods := ctx.comparison_periods
    aggregation_level := ctx.aggregation_level
    clarifications := ctx.clarifications
    awaiting_user_reply := ctx.awaiting_user_reply }

/-- The field-dispatch block of `SupervisorAgent._handle_follow_up` (source
lines 297-333): interprets the non-blank `answer` as the value of the
pending item's `field` and returns `(updated context, handled,
requires_additional)`.  The source also stores the accepted answer into
`last_item.value`; since every `handled` path immediately pops that very
item, the mutation is invisible in the resulting context. -/
def followUpApplyAnswer (env : SupervisorEnv) (ctx : QueryContext)
    (last_item : ClarificationItem) (answer : String) : QueryContext × Bool × Bool :=
  if last_item.field = "aggregation_level" then
    match normalizeAggregationLevel answer with
    | some normalized => ({ ctx with aggregation_level := some normalized }, true, false)
    | none => (ctx, false, false)
  else if last_item.field = "period" then
    match normalizePeriodAnswer env answer with
    | (some (.full info), _) => (applyPeriodInfo ctx info, true, false)
    | (some (.granularity g), req) => ({ ctx with period_level := some g }, true, req)
    | (none, _) => (ctx, false, false)
  else if last_item.field = "tenant_name" then
    ({ ctx with tenant_name := some answer }, true, false)
  else if last_item.field = "property_name" then
    match (env.resolve_properties answer 1).matches'.head? with
    | some m =>
      ({ ctx with
          property_name := some
            (match m.property_name with
             | some p => if p = "" then m.address else p
             | none => m.address),
          addresses := [m.address],
          address_matches := [serializeMatch m] }, true, false)
    | none => (ctx, true, false)
  else (ctx, true, false)

/-- Mirror of `SupervisorAgent._handle_follow_up`.  The in-place mutations of
the Python code are modelled by threading the updated context; the return
value pairs the emitted `SupervisorDecision` with the mutated context.
Setting `last_item.value` mutates the very item that is popped on every
`handled` path, so the net effect on `clarifications` is `dropLast`. -/
def handleFollowUp (env : SupervisorEnv) (ctx : QueryContext) :
    SupervisorDecision × QueryContext :=
  match ctx.clarifications.getLast? with
  | none =>
    -- Unreachable from `analyze`, which guards on a non-empty list.
    (decisionFromContext ctx [], ctx)
  | some last_item =>
    let answer := pyStrip ctx.user_input
    if answer = "" then
      let ctx := { ctx with awaiting_user_reply := true }
      (decisionFromContext ctx (listOr ctx.clarification_reasons [last_item.field]), ctx)
    else
      let step := followUpApplyAnswer env ctx last_item answer
      let ctx1 := step.1
      let handled := step.2.1
      let requires_additional := step.2.2
      if handled then
        let ctx2 := { ctx1 with clarifications := ctx1.clarifications.dropLast,
                                awaiting_user_reply := false }
        let missing0 := computeMissingRequirements ctx2
        let missing :=
          if requires_additional ∧ ¬missing0.contains "period" then missing0 ++ ["period"]
          else missing0
        let ctx3 := { ctx2 with clarification_reasons := missing,
                                needs_clarification := ¬missing.isEmpty,
                                clarification_needed := ¬missing.isEmpty }
        let ctx4 := if ¬ctx3.needs_clarification then { ctx3 with clarifications := [] } else ctx3
        (decisionFromContext ctx4 missing, ctx4)
      else
        let ctx2 := { ctx1 with awaiting_user_reply := true }
        (decisionFromContext ctx2 (listOr ctx2.clarification_reasons [last_item.field]), ctx2)

/-- The missing-requirement accumulation block of
`SupervisorAgent._classify_new_request` (source lines 207-234), factored out
with the values it reads as parameters. -/
def newRequestMissing (request_type : RequestType) (addresses : List String)
    (period : Option String) (year : Option Int) (quarter month period_level : Option String)
    (property_name tenant_name : Option String) (comparison_periods : List PeriodPayload)
    (explicit_count : Nat) (resolved_empty : Bool) (missing : List String) : List String :=
  let missing :=
    if request_type = .price_comparison ∧ addresses.length < 2 ∧
        ¬missing.contains "second_property" then missing ++ ["second_property"]
    else missing
  let missing :=
    if request_type = .asset_details ∧ addresses.isEmpty ∧ ¬missing.contains "property" then
      missing ++ ["property"]
    else missing
  let missing :=
    if request_type = .pnl ∧
        ¬(truthyStr period ∨ truthyInt year ∨ truthyStr quarter ∨ truthyStr month) ∧
        comparison_periods.isEmpty then missing ++ ["period"]
    else missing
  let aggregation_required :=
    request_type = .pnl ∧ truthyStr property_name ∧ ¬truthyStr tenant_name ∧
      (period_level = some "year" ∨ (year.isSome ∧ ¬truthyStr quarter ∧ ¬truthyStr month))
  let missing :=
    if aggregation_required ∧ ¬missing.contains "aggregation_level" then
      missing ++ ["aggregation_level"]
    else missing
  let missing :=
    if ¬comparison_periods.isEmpty then
      let missing :=
        if comparison_periods.length ≠ 2 ∧ ¬missing.contains "comparison_periods" then
          missing ++ ["comparison_periods"]
        else missing
      let missing :=
        if explicit_count > 1 ∧ ¬missing.contains "property_selection" then
          missing ++ ["property_selection"]
        else missing
      if resolved_empty ∧ ¬missing.contains "property" then missing ++ ["property"]
      else missing
    else missing
  dedup missing

/-- Mirror of `SupervisorAgent._classify_new_request`.  The `_parse` result
cache is transparent for a pure oracle; `tools.resolve_properties`,
`tools.extract_period_hint`, `tools.extract_tenant_names` and the
(spec-modelled, missing from `app/tools.py`) `tools.extract_comparison_periods`
are read from the oracle record. -/
def classifyNewRequest (env : SupervisorEnv) (ctx : QueryContext) : SupervisorDecision :=
  let user_input := ctx.user_input
  let classifier_result := env.classify user_input
  let parse_result := env.parse user_input
  let request_type := mapRequestType (some classifier_result.request_type)
  let combined_address_terms := dedup (parse_result.address_terms ++ classifier_result.addresses)
  let max_matches := if request_type = .price_comparison then 4 else 2
  let property_resolution := env.resolve_properties user_input max_matches
  let ms := property_resolution.matches'
  let dataset_matches := ms.filter (fun m => ¬m.metadata.isEmpty)
  let explicit_matches := dataset_matches.filter (fun m => m.reason = "Alias or direct match")
  let resolved_matches := listOr explicit_matches dataset_matches
  let address_limit := if request_type = .price_comparison then 2 else 1
  let primary_matches := resolved_matches.take address_limit
  let addresses := primary_matches.map (·.address)
  let period_info := env.extract_period_hint user_input
  let interpreted := interpretPeriodLabel classifier_result.period
  let period := orElseStr interpreted.1 period_info.label
  let period_level := orElseStr interpreted.2.1 period_info.level
  let year := if interpreted.2.2.1.isSome then interpreted.2.2.1 else period_info.year
  let quarter := orElseStr interpreted.2.2.2.1 period_info.quarter
  let month := orElseStr interpreted.2.2.2.2 period_info.month
  let tenants := env.extract_tenant_names user_input
  let pe : Option String × Option String :=
    match primary_matches.head? with
    | some primary =>
      (some
        (match primary.property_name with
         | some p => if p = "" then primary.address else p
         | none => primary.address),
       orElseStr parse_result.entity_name (metaGet primary.metadata "entity"))
    | none =>
      if (request_type = .asset_details ∨ request_type = .price_comparison) ∧
          ¬combined_address_terms.isEmpty then
        (combined_address_terms.head?, parse_result.entity_name)
      else (none, parse_result.entity_name)
  let property_name := pe.1
  let entity_name := pe.2
  let tenant_name := orElseStr parse_result.tenant_name tenants.head?
  let missing := dedup (classifier_result.missing_fields ++ parse_result.missing_fields)
  let comparison_markers :=
    if ¬parse_result.comparison_markers.isEmpty then true
    else env.comparison_regex (lowerString user_input)
  let comparison_markers :=
    if ¬classifier_result.comparison_periods.isEmpty then true else comparison_markers
  let classifier_comparisons :=
    classifier_result.comparison_periods.filterMap comparisonPayloadFromLabel
  let comparison_periods := if classifier_comparisons.length = 2 then classifier_comparisons else []
  let tool_periods :=
    if request_type = .pnl ∧ (comparison_markers ∨ ¬classifier_comparisons.isEmpty) then
      env.extract_comparison_periods user_input 2
    else []
  let comparison_periods :=
    if ¬tool_periods.isEmpty then tool_periods
    else if comparison_periods.isEmpty then classifier_comparisons
    else comparison_periods
  let adjusted : Option String × Option String × Option Int × Option String × Option String :=
    match comparison_periods.head? with
    | some first => (some first.label, some first.level, none, none, first.month)
    | none => (period, period_level, year, quarter, month)
  let period := adjusted.1
  let period_level := adjusted.2.1
  let year := adjusted.2.2.1
  let quarter := adjusted.2.2.2.1
  let month := adjusted.2.2.2.2
  let missing := newRequestMissing request_type addresses period year quarter month period_level
    property_name tenant_name comparison_periods explicit_matches.length
    resolved_matches.isEmpty missing
  let needs_clarification := ¬missing.isEmpty
  let serialized_matches := ms.map serializeMatch
  let suggested_addresses := suggestAddresses env ms addresses
  let notes := parse_result.notes
  let notes :=
    if classifier_result.request_type ≠ "" ∧ classifier_result.request_type ≠ request_type.value
    then notes ++ ["Classifier intent override: " ++ classifier_result.request_type]
    else notes
  let notes :=
    if ¬property_resolution.unresolved_terms.isEmpty then
      notes ++ ["Unresolved mentions: " ++ String.intercalate ", " property_resolution.unresolved_terms]
    else notes
  let notes :=
    if ¬property_resolution.missing_assets.isEmpty then
      notes ++ ["Not in dataset: " ++ String.intercalate ", " property_resolution.missing_assets]
    else notes
  { request_type
    addresses
    address_matches := serialized_matches
    suggested_addresses
    candidate_terms := property_resolution.candidate_terms
    unresolved_terms := property_resolution.unresolved_terms
    missing_addresses := property_resolution.missing_assets
    notes
    period
    period_level
    entity_name
    property_name
    tenant_name
    tenant_candidates := tenants
    missing_requirements := missing
    needs_clarification
    year
    quarter
    month
    measurement_id := some (requestMeasurementId request_type)
    comparison_periods }

/-- Mirror of `SupervisorAgent.analyze` on an existing `QueryContext` (the
`isinstance(context_or_input, str)` branch merely wraps the string in a fresh
context first).  Returns the decision together with the possibly mutated
context. -/
def analyze (env : SupervisorEnv) (ctx : QueryContext) : SupervisorDecision × QueryContext :=
  if ctx.awaiting_user_reply ∧ ¬ctx.clarifications.isEmpty then handleFollowUp env ctx
  else (classifyNewRequest env ctx, ctx)

/-- One turn of the dialogue: the caller stores the next user message in
`user_input` and the supervisor analyzes the context in place. -/
def analyzeStep (env : SupervisorEnv) (ctx : QueryContext) (input : String) : QueryContext :=
  (analyze env { ctx with user_input := input }).2

/-! ### Property memory (`app/knowledge/property_memory.py`)

The catalog (`records`) is the dataset-derived table.  External numeric
machinery is modelled as oracles on the state:
* `tfidf_scores text` is the cosine-similarity vector `_tfidf_scores`
  computes with scikit-learn (one entry per record);
* `embed_cosine text` is the per-document cosine-score vector the OpenAI
  embedding client yields inside `_blend_with_embeddings` (the dot products
  and clipped norms of the source, applied to the externally produced
  vectors); `none` models the `except` branch, i.e. a failed embedding call;
* `use_embeddings` is the mutable `_use_embeddings` flag (it subsumes the
  `_document_embeddings is None` / `not self._embedding_client` guards,
  which are established together with the flag in `_maybe_warm_embeddings`);
* `extract_candidate_terms` is `_extract_candidate_terms` (alias-index hits
  plus two regex scans over the text), pure text processing modelled as an
  oracle.
`np.argsort(scores)[::-1]` is modelled as a stable ascending argsort (ties
in ascending index order) followed by reversal. -/

/-- Record fields of `PropertyRecord` that the verified claims observe
(`price`, `pnl`, `aliases` and `document` only feed the oracles above). -/
structure PropertyRecord where
  address : String
  property_name : Option String := none
  city : Option String := none
  state : Option String := none
  tenant_name : Option String := none
deriving DecidableEq, Repr

def emptyRecord : PropertyRecord := { address := "" }

/-- Mirror of the `PropertyMemoryResult` dataclass. -/
structure PropertyMemoryResult where
  query : String
  matches' : List PropertyMatch := []
  candidate_terms : List String := []
  unresolved_terms : List String := []
deriving DecidableEq, Repr

/-- State of a `PropertyMemory` instance (see the section comment for the
oracle fields). -/
structure PropertyMemoryState where
  records : List PropertyRecord
  tfidf_scores : String → List ℚ
  embed_cosine : String → Option (List ℚ)
  use_embeddings : Bool
  extract_candidate_terms : String → List String

/-- Mirror of `_reason_label`. -/
def reasonLabel (st : PropertyMemoryState) : String :=
  if st.use_embeddings then "Hybrid similarity (tf-idf + embeddings)" else "TF-IDF similarity"

/-- Mirror of `_blend_with_embeddings`: rescales the cosine scores from
[-1,1] to [0,1] and blends `0.6 * tfidf + 0.4 * normalized`; on an embedding
failure it clears `_use_embeddings` and falls back to the TF-IDF scores. -/
def blendWithEmbeddings (st : PropertyMemoryState) (text : String) (tfidf : List ℚ) :
    List ℚ × PropertyMemoryState :=
  if ¬st.use_embeddings then (tfidf, st)
  else
    match st.embed_cosine text with
    | none => (tfidf, { st with use_embeddings := false })
    | some cosine_scores =>
      (List.zipWith (fun t c => 6/10 * t + 4/10 * ((c + 1) / 2)) tfidf cosine_scores, st)

/-- Round-half-to-even on integers scaled by `10^4`: model of Python's
`round(score, 4)` (applied to exact rationals instead of binary floats). -/
def roundHalfEvenInt (q : ℚ) : Int :=
  let f := ⌊q⌋
  let r := q - f
  if r < 1/2 then f else if 1/2 < r then f + 1 else if f % 2 = 0 then f else f + 1

def round4 (q : ℚ) : ℚ := (roundHalfEvenInt (q * 10000) : ℚ) / 10000

/-- Comparison used to model `np.argsort(scores)` as a stable ascending
sort: sort the index list by score, breaking ties by the original
(insertion) index. -/
def argsortKeyLe (scores : List ℚ) (i j : Nat) : Bool :=
  decide (scores.getD i 0 < scores.getD j 0 ∨ (scores.getD i 0 = scores.getD j 0 ∧ i ≤ j))

def insertBy {α : Type} (le : α → α → Bool) (x : α) : List α → List α
  | [] => [x]
  | y :: ys => if le x y then x :: y :: ys else y :: insertBy le x ys

def sortBy {α : Type} (le : α → α → Bool) : List α → List α
  | [] => []
  | x :: xs => insertBy le x (sortBy le xs)

/-- Model of `np.argsort(scores)[::-1]`. -/
def argsortDesc (scores : List ℚ) : List Nat :=
  (sortBy (argsortKeyLe scores) (List.range scores.length)).reverse

/-- The indices `_build_matches` keeps: the first `top_k` of the descending
argsort, truncated at the first non-positive score (the `break`). -/
def selectedIndices (scores : List ℚ) (top_k : Nat) : List Nat :=
  ((argsortDesc scores).take top_k).takeWhile (fun idx => decide (0 < scores.getD idx 0))

/-- Mirror of `_build_matches`. -/
def buildMatches (records : List PropertyRecord) (scores : List ℚ) (top_k : Nat)
    (reason : String) : List PropertyMatch :=
  if scores.isEmpty then []
  else
    (selectedIndices scores top_k).enum.map (fun pi =>
      let record := records.getD pi.2 emptyRecord
      { address := record.address
        property_name := record.property_name
        confidence := max 0 (min 1 (round4 (scores.getD pi.2 0)))
        rank := pi.1 + 1
        reason
        metadata := [("city", record.city), ("state", record.state),
                     ("tenant_name", record.tenant_name)] })

/-- Mirror of `PropertyMemory.search` (default `top_k=5`), returning the
matches together with the updated memory state. -/
def search (st : PropertyMemoryState) (text : String) (top_k : Nat := 5) :
    List PropertyMatch × PropertyMemoryState :=
  if text = "" ∨ st.records.isEmpty then ([], st)
  else
    let blended := blendWithEmbeddings st text (st.tfidf_scores text)
    (buildMatches blended.2.records blended.1 top_k (reasonLabel blended.2), blended.2)

/-- The candidate loop of `resolve_mentions` (steps over `candidate_terms`,
resolving each via `search(candidate, top_k=1)`, gating on confidence and on
addresses already claimed, breaking once `expected` matches are found).
Returns `(matches, unresolved, seen, state)`. -/
def resolveLoop (st : PropertyMemoryState) (expected : Nat) (min_confidence : ℚ) :
    List String → List String → List PropertyMatch → List String →
    List PropertyMatch × List String × List String × PropertyMemoryState
  | [], seen, found, unresolved => (found, unresolved, seen, st)
  | candidate :: rest, seen, found, unresolved =>
    let ranked := search st candidate 1
    match ranked.1.head? with
    | none => resolveLoop ranked.2 expected min_confidence rest seen found (unresolved ++ [candidate])
    | some m =>
      if m.confidence < min_confidence ∨ seen.contains m.address then
        resolveLoop ranked.2 expected min_confidence rest seen found (unresolved ++ [candidate])
      else
        let found' := found ++
          [{ m with rank := found.length + 1,
                    reason := m.reason ++ " (from \x27" ++ candidate ++ "\x27)" }]
        if found'.length ≥ expected then (found', unresolved, seen ++ [m.address], ranked.2)
        else resolveLoop ranked.2 expected min_confidence rest (seen ++ [m.address]) found' unresolved

/-- The backfill loop of `resolve_mentions` over the full-query `search`
results (same gating, `"(fallback from full query)"` provenance). -/
def fillerLoop (expected : Nat) (min_confidence : ℚ) :
    List PropertyMatch → List String → List PropertyMatch → List PropertyMatch
  | [], _, found => found
  | m :: rest, seen, found =>
    if seen.contains m.address then fillerLoop expected min_confidence rest seen found
    else if m.confidence < min_confidence then fillerLoop expected min_confidence rest seen found
    else
      let found' := found ++
        [{ m with rank := found.length + 1, reason := m.reason ++ " (fallback from full query)" }]
      if found'.length ≥ expected then found'
      else fillerLoop expected min_confidence rest (seen ++ [m.address]) found'

/-- Mirror of `PropertyMemory.resolve_mentions` (defaults `expected=2`,
`min_confidence=0.12`), returning the result together with the updated
memory state. -/
def resolveMentions (st : PropertyMemoryState) (text : String) (expected : Nat := 2)
    (min_confidence : ℚ := 12/100) : PropertyMemoryResult × PropertyMemoryState :=
  if text = "" then ({ query := text }, st)
  else
    let candidate_terms := st.extract_candidate_terms text
    let looped := resolveLoop st expected min_confidence candidate_terms [] [] []
    let found := looped.1
    let unresolved := looped.2.1
    let seen := looped.2.2.1
    let st1 := looped.2.2.2
    if ¬candidate_terms.isEmpty ∧ found.length < expected then
      let filler := search st1 text (expected - found.length)
      let found2 := fillerLoop expected min_confidence filler.1 seen found
      ({ query := text, matches' := found2, candidate_terms, unresolved_terms := unresolved },
       filler.2)
    else
      ({ query := text, matches' := found, candidate_terms, unresolved_terms := unresolved }, st1)

/-! ### The `app/tools.py` module surface -/

/-- The names of the top-level functions `def`ined in `app/tools.py`, in
source order. -/
def toolsModuleFunctions : List String :=
  ["format_currency", "build_response_payload", "search_properties",
   "resolve_property_mentions", "resolve_properties",
   "suggest_alternative_properties", "_address_aliases", "_known_properties",
   "_known_tenants", "_building_pattern_matches", "_fuzzy_property_match",
   "extract_addresses", "extract_tenant_names", "extract_period_hint",
   "_require_columns", "_lookup_asset", "_record_metadata", "has_price_data",
   "filter_ledger", "aggregate_pnl", "pnl_by_property", "_infer_period_level",
   "_resolve_period_label", "_describe_subject", "compute_portfolio_pnl",
   "get_asset_value", "percent_difference", "compare_asset_values",
   "get_asset_value_history", "list_assets", "check_asset_exists",
   "get_asset_snapshot", "explain_ledger_code"]

/-- The `__all__` export list of `app/tools.py`, in source order. -/
def toolsModuleAll : List String :=
  ["format_currency", "build_response_payload", "search_properties",
   "resolve_property_mentions", "resolve_properties",
   "suggest_alternative_properties", "has_price_data", "extract_addresses",
   "extract_tenant_names", "extract_period_hint", "filter_ledger",
   "aggregate_pnl", "pnl_by_property", "compute_portfolio_pnl",
   "get_asset_value", "percent_difference", "compare_asset_values",
   "get_asset_value_history", "list_assets", "check_asset_exists",
   "get_asset_snapshot", "explain_ledger_code"]

/-! ### Valuation toolkit (`app/tools.py`, lines 631-655) -/

/-- One dataset row as `_lookup_asset` / `get_asset_value` observe it: the
`price` is `none` when the `price` column is absent for the lookup (the
source checks `"price" not in record.index`). -/
structure AssetRow where
  address : String
  price : Option ℚ := none
deriving DecidableEq, Repr

/-- Mirror of `_lookup_asset`: first row whose address contains the query
case-insensitively, `ValueError` otherwise (modelled with `Except`). -/
def lookupAsset (df : List AssetRow) (address_query : String) : Except String AssetRow :=
  match df.find? (fun row => containsSub (lowerString row.address) (lowerString address_query)) with
  | some row => .ok row
  | none => .error ("Address \x27" ++ address_query ++ "\x27 not found.")

/-- Mirror of `get_asset_value`. -/
def get_asset_value (df : List AssetRow) (address : String) : Except String ℚ :=
  match lookupAsset df address with
  | .error e => .error e
  | .ok record =>
    match record.price with
    | none => .error "Price data is not available in the current dataset."
    | some p => .ok p

/-- Mirror of `percent_difference`. -/
def percent_difference (value_a value_b : ℚ) : Option ℚ :=
  if value_b = 0 then none else some ((value_a - value_b) / value_b * 100)

/-- The dict `compare_asset_values` returns (the `difference_formatted`
currency string is presentation-only and not modelled). -/
structure AssetComparison where
  property_a_address : String
  property_a_price : ℚ
  property_b_address : String
  property_b_price : ℚ
  difference : ℚ
  percent_delta : Option ℚ
deriving DecidableEq, Repr

/-- Mirror of `compare_asset_values`. -/
def compare_asset_values (df : List AssetRow) (address_a address_b : String) :
    Except String AssetComparison :=
  match get_asset_value df address_a with
  | .error e => .error e
  | .ok value_a =>
    match get_asset_value df address_b with
    | .error e => .error e
    | .ok value_b =>
      .ok { property_a_address := address_a
            property_a_price := value_a
            property_b_address := address_b
            property_b_price := value_b
            difference := value_a - value_b
            percent_delta := percent_difference value_a value_b }

/-! ### The per-request-type rules of the specification (for the refinement
claim about the follow-up recomputation) -/

/-- Stated from the specification's words (spec section 4.4, `NEW` path, and
the refinement claim): the missing requirements the `NEW`-path rules compute
for a `pnl` context — `"period"` only when no period/year/quarter/month/
comparison-periods is set, `"comparison_periods"` only when the list is
non-empty and its length is not 2, and `"aggregation_level"` only when the
grain is year-level, a property is known and no tenant is specified.  This
definition follows the claim's words, to be compared with
`computeMissingRequirements` (translated from the source). -/
def specNewPathPnlMissing (ctx : QueryContext) : List String :=
  (if ¬(truthyStr ctx.period ∨ ctx.year.isSome ∨ truthyStr ctx.quarter ∨
        truthyStr ctx.month ∨ ¬ctx.comparison_periods.isEmpty) then ["period"] else []) ++
    (if ¬ctx.comparison_periods.isEmpty ∧ ctx.comparison_periods.length ≠ 2 then
      ["comparison_periods"] else []) ++
    (if ctx.period_level = some "year" ∧ truthyStr ctx.property_name ∧
        ¬truthyStr ctx.tenant_name then ["aggregation_level"] else [])

/-- The score vector `PropertyMemory.search` ranks by (pure projection of
`search`, for stating ranking properties). -/
def searchScores (st : PropertyMemoryState) (text : String) : List ℚ :=
  if text = "" ∨ st.records.isEmpty then []
  else (blendWithEmbeddings st text (st.tfidf_scores text)).1

/-! ### Concrete instances used by witnesses and counterexamples -/

/-- Classifier oracle for the hard-rule witness: the regex extractors find
one address and one period, no tenant pattern, and the definitional-question
pattern fires (the text reads like a conceptual question). -/
def envC1 : ClassifierTextEnv :=
  { extract_addresses := fun _ => ["Building 180"]
    extract_periods := fun _ => ["2025"]
    tenant_pattern_search := fun _ => false
    general_question_search := fun _ => true }

def textC1 : String := "What is my P&L for Building 180 in 2025?"

/-- An external-model suggestion proposing a different request type. -/
def llmC1 : ClassificationResult := { request_type := "general" }

/-- Supervisor oracle whose collaborators all return empty results. -/
def envTriv : SupervisorEnv :=
  { classify := fun _ => {}
    parse := fun _ => {}
    resolve_properties := fun _ _ => {}
    extract_period_hint := fun _ => {}
    extract_tenant_names := fun _ => []
    comparison_regex := fun _ => false
    extract_comparison_periods := fun _ _ => []
    suggest_alternative_properties := fun _ _ => [] }

def itemPeriod : ClarificationItem :=
  { field := "period", question := "Which period should I use? Month, quarter, or year?",
    kind := "granularity", options := ["month", "quarter", "year"] }

def ctxC2 : QueryContext :=
  { user_input := "Show me the P&L for Building 180.", request_type := .pnl,
    property_name := some "Building 180", clarifications := [itemPeriod],
    awaiting_user_reply := true, needs_clarification := true,
    clarification_reasons := ["period"] }

/-- Supervisor oracle for the follow-up counterexample: the period hint
parser resolves "March 2025" to the canonical month `2025-M03`. -/
def envC4 : SupervisorEnv :=
  { envTriv with
    extract_period_hint := fun s =>
      if s = "March 2025" then
        { label := some "2025-M03", level := some "month", year := some 2025,
          month := some "2025-M03" }
      else {} }

/-- Awaiting-reply context whose pending question asks for the period of a
P&L request about a known property with no tenant. -/
def ctxC4 : QueryContext :=
  { user_input := "March 2025", request_type := .pnl,
    property_name := some "Building 180", addresses := ["Building 180"],
    clarifications := [itemPeriod], awaiting_user_reply := true,
    needs_clarification := true, clarification_reasons := ["period"] }

/-- A pnl context used to instantiate the follow-up recomputation rules. -/
def ctxC4w : QueryContext :=
  { user_input := "", request_type := .pnl }

/-- Supervisor oracle for the comparison-shape witness: the classification
layer suggests a P&L request naming a single comparison period. -/
def envC6 : SupervisorEnv :=
  { envTriv with
    classify := fun _ => { request_type := "pnl", comparison_periods := ["2025-M01"] } }

def ctxC6 : QueryContext :=
  { user_input := "Compare January 2025 P&L for Building 180." }

def payloadJan : PeriodPayload :=
  { label := "2025-M01", level := "month", year := 2025, month := some "2025-M01" }

/-- A pnl context with a single (invalid-shape) comparison period. -/
def ctxC6w : QueryContext :=
  { user_input := "", request_type := .pnl, comparison_periods := [payloadJan] }

/-- Supervisor oracle for the comparison-shape counterexample: property
resolution finds the asked-for building. -/
def envC6cx : SupervisorEnv :=
  { envTriv with
    resolve_properties := fun _ _ =>
      { matches' := [{ address := "Building 180", property_name := some "Building 180",
                       confidence := 1, rank := 1, reason := "Alias or direct match",
                       metadata := [("city", some "New York")] }] } }

/-- An awaiting-reply `asset_details` context carrying a one-entry
comparison-period list and a pending property question. -/
def ctxC6cx : QueryContext :=
  { user_input := "Building 180", request_type := .asset_details,
    comparison_periods := [payloadJan],
    clarifications := [{ field := "property_name", question := "Which property?" }],
    awaiting_user_reply := true, needs_clarification := true,
    clarification_reasons := ["property"] }

/-- A two-record catalog in which both records score identically
(`tfidf` gives both documents similarity 1), embeddings disabled. -/
def memTie : PropertyMemoryState :=
  { records := [{ address := "Building 100" }, { address := "Building 200" }]
    tfidf_scores := fun _ => [1, 1]
    embed_cosine := fun _ => none
    use_embeddings := false
    extract_candidate_terms := fun _ => [] }

/-- A one-record catalog used for confidence-bound witnesses. -/
def memOne : PropertyMemoryState :=
  { records := [{ address := "Building 300" }]
    tfidf_scores := fun _ => [1]
    embed_cosine := fun _ => none
    use_embeddings := false
    extract_candidate_terms := fun _ => ["Building 300"] }

/-- The match `search memOne "Building 300" 1` produces. -/
def matchOne : PropertyMatch :=
  { address := "Building 300", property_name := none, confidence := 1, rank := 1,
    reason := "TF-IDF similarity",
    metadata := [("city", none), ("state", none), ("tenant_name", none)] }

/-- A two-record catalog with embeddings enabled whose embedding client
succeeds on the candidate phrase `"c"` but raises on the full query: the
blended ranking favours the first record, the TF-IDF-only ranking the
second. -/
def memEmb : PropertyMemoryState :=
  { records := [{ address := "Building A" }, { address := "Building B" }]
    tfidf_scores := fun s => if s = "c" then [2/10, 3/10] else [0, 0]
    embed_cosine := fun s => if s = "c" then some [1, -1] else none
    use_embeddings := true
    extract_candidate_terms := fun _ => ["c"] }

/-- The state `memEmb` reaches once an embedding call has failed. -/
def memEmbOff : PropertyMemoryState := { memEmb with use_embeddings := false }

/-- The top match for the candidate phrase `"c"` under the blended scores. -/
def mAmatch : PropertyMatch :=
  { address := "Building A", property_name := none, confidence := 13/25, rank := 1,
    reason := "Hybrid similarity (tf-idf + embeddings)",
    metadata := [("city", none), ("state", none), ("tenant_name", none)] }

/-- The top match for the candidate phrase `"c"` under TF-IDF-only scores. -/
def mBmatch : PropertyMatch :=
  { address := "Building B", property_name := none, confidence := 3/10, rank := 1,
    reason := "TF-IDF similarity",
    metadata := [("city", none), ("state", none), ("tenant_name", none)] }

def mAresolved : PropertyMatch :=
  { mAmatch with reason := mAmatch.reason ++ " (from \x27c\x27)" }

def mBresolved : PropertyMatch :=
  { mBmatch with reason := mBmatch.reason ++ " (from \x27c\x27)" }

/-- Pending-question context whose next user message is blank. -/
def ctxC9 : QueryContext :=
  { user_input := "   ", request_type := .pnl, property_name := some "Building 180",
    clarifications := [itemPeriod], awaiting_user_reply := true,
    needs_clarification := true, clarification_reasons := ["period"] }

/-- A two-row dataset whose second property has price 0. -/
def dfC10 : List AssetRow :=
  [{ address := "123 Main St", price := some 4 }, { address := "456 Oak Ave", price := some 0 }]

/-- The comparison `compare_asset_values dfC10 "123 Main St" "456 Oak Ave"` yields. -/
def resC10 : AssetComparison :=
  { property_a_address := "123 Main St", property_a_price := 4,
    property_b_address := "456 Oak Ave", property_b_price := 0,
    difference := 4, percent_delta := none }

/-! ## Helper lemmas -/

theorem mem_dedupAux (a : String) (seen l : List String) :
    a ∈ dedupAux seen l ↔ a ∈ l ∧ a ∉ seen := by
  induction l generalizing seen with
  | nil => simp [dedupAux]
  | cons x xs ih =>
    simp only [dedupAux]
    by_cases hx : seen.contains x
    · rw [if_pos hx, ih]
      have hxs : x ∈ seen := List.elem_iff.mp hx
      constructor
      · rintro ⟨h1, h2⟩
        exact ⟨.tail _ h1, h2⟩
      · rintro ⟨h1, h2⟩
        rcases List.mem_cons.mp h1 with rfl | h1
        · exact absurd hxs h2
        · exact ⟨h1, h2⟩
    · rw [if_neg hx]
      have hxs : x ∉ seen := fun h => hx (List.elem_iff.mpr h)
      constructor
      · intro h
        rcases List.mem_cons.mp h with rfl | h
        · exact ⟨.head _, hxs⟩
        · obtain ⟨h1, h2⟩ := (ih _).mp h
          exact ⟨.tail _ h1, fun hs => h2 (.tail _ hs)⟩
      · rintro ⟨h1, h2⟩
        by_cases hax : a = x
        · subst hax
          exact .head _
        · rcases List.mem_cons.mp h1 with rfl | h1
          · exact absurd rfl hax
          · refine .tail _ ((ih _).mpr ⟨h1, fun hs => ?_⟩)
            rcases List.mem_cons.mp hs with h | h
            · exact hax h
            · exact h2 h

theorem mem_dedup (a : String) (l : List String) : a ∈ dedup l ↔ a ∈ l := by
  simp [dedup, mem_dedupAux]

theorem computeMissingFields_request_type (r : ClassificationResult) :
    (computeMissingFields r).request_type = r.request_type := rfl

theorem applyOverrides_hard_rule (u : String) (primary baseline : ClassificationResult)
    (hints : ClassifierHints) (h1 : hints.has_pnl = true) (h2 : hints.has_property = true)
    (h3 : hints.has_period = true) :
    (applyOverrides u primary baseline hints).request_type = "pnl" := by
  simp only [applyOverrides, h1, h2, h3]
  simp [REQUEST_TYPE_VALUES]

theorem followUpApplyAnswer_clarifications (env : SupervisorEnv) (ctx : QueryContext)
    (item : ClarificationItem) (answer : String) :
    (followUpApplyAnswer env ctx item answer).1.clarifications = ctx.clarifications := by
  unfold followUpApplyAnswer
  repeat' split
  all_goals rfl

theorem ite_clarifications_length_le {c : Prop} [Decidable c] {a b : QueryContext} {n : Nat}
    (ha : a.clarifications.length ≤ n) (hb : b.clarifications.length ≤ n) :
    (if c then a else b).clarifications.length ≤ n := by
  by_cases h : c
  · rwa [if_pos h]
  · rwa [if_neg h]

theorem analyze_clarifications_length (env : SupervisorEnv) (ctx : QueryContext) :
    ((analyze env ctx).2).clarifications.length ≤ ctx.clarifications.length := by
  unfold analyze
  split
  · unfold handleFollowUp
    split
    · exact le_refl _
    · dsimp only
      split
      · exact le_refl _
      · split
        · dsimp only
          apply ite_clarifications_length_le
          · exact Nat.zero_le _
          · dsimp only
            rw [followUpApplyAnswer_clarifications, List.length_dropLast]
            exact Nat.sub_le _ _
        · dsimp only
          rw [followUpApplyAnswer_clarifications]
  · exact le_refl _

theorem insertBy_perm {α : Type} (le : α → α → Bool) (x : α) (l : List α) :
    List.Perm (insertBy le x l) (x :: l) := by
  induction l with
  | nil => exact List.Perm.refl _
  | cons y ys ih =>
    unfold insertBy
    by_cases h : le x y = true
    · rw [if_pos h]
    · rw [if_neg h]
      exact (ih.cons y).trans (List.Perm.swap x y ys)

theorem sortBy_perm {α : Type} (le : α → α → Bool) (l : List α) :
    List.Perm (sortBy le l) l := by
  induction l with
  | nil => exact List.Perm.refl _
  | cons x xs ih => exact (insertBy_perm le x (sortBy le xs)).trans (ih.cons x)

theorem pairwise_insertBy {α : Type} (le : α → α → Bool)
    (htot : ∀ a b, le a b = true ∨ le b a = true)
    (htrans : ∀ a b c, le a b = true → le b c = true → le a c = true)
    (x : α) (l : List α) (h : l.Pairwise (fun a b => le a b = true)) :
    (insertBy le x l).Pairwise (fun a b => le a b = true) := by
  induction l with
  | nil => simp [insertBy]
  | cons y ys ih =>
    obtain ⟨hy, hys⟩ := List.pairwise_cons.mp h
    unfold insertBy
    by_cases hxy : le x y = true
    · rw [if_pos hxy]
      refine List.pairwise_cons.mpr ⟨?_, h⟩
      intro b hb
      rcases List.mem_cons.mp hb with rfl | hb
      · exact hxy
      · exact htrans x y b hxy (hy b hb)
    · rw [if_neg hxy]
      have hyx : le y x = true := (htot x y).resolve_left hxy
      refine List.pairwise_cons.mpr ⟨?_, ih hys⟩
      intro b hb
      rcases List.mem_cons.mp ((insertBy_perm le x ys).mem_iff.mp hb) with rfl | hb2
      · exact hyx
      · exact hy b hb2

theorem pairwise_sortBy {α : Type} (le : α → α → Bool)
    (htot : ∀ a b, le a b = true ∨ le b a = true)
    (htrans : ∀ a b c, le a b = true → le b c = true → le a c = true)
    (l : List α) : (sortBy le l).Pairwise (fun a b => le a b = true) := by
  induction l with
  | nil => simp [sortBy]
  | cons x xs ih => exact pairwise_insertBy le htot htrans x _ ih

theorem argsortKeyLe_total (scores : List ℚ) (i j : Nat) :
    argsortKeyLe scores i j = true ∨ argsortKeyLe scores j i = true := by
  unfold argsortKeyLe
  simp only [decide_eq_true_eq]
  rcases lt_trichotomy (scores.getD i 0) (scores.getD j 0) with h | h | h
  · exact Or.inl (Or.inl h)
  · rcases le_total i j with hij | hij
    · exact Or.inl (Or.inr ⟨h, hij⟩)
    · exact Or.inr (Or.inr ⟨h.symm, hij⟩)
  · exact Or.inr (Or.inl h)

theorem argsortKeyLe_trans (scores : List ℚ) (a b c : Nat)
    (hab : argsortKeyLe scores a b = true) (hbc : argsortKeyLe scores b c = true) :
    argsortKeyLe scores a c = true := by
  unfold argsortKeyLe at *
  simp only [decide_eq_true_eq] at *
  rcases hab with h1 | ⟨h1, h1n⟩ <;> rcases hbc with h2 | ⟨h2, h2n⟩
  · exact Or.inl (h1.trans h2)
  · exact Or.inl (h2 ▸ h1)
  · exact Or.inl (h1 ▸ h2)
  · exact Or.inr ⟨h1.trans h2, h1n.trans h2n⟩

theorem argsortDesc_perm (scores : List ℚ) :
    List.Perm (argsortDesc scores) (List.range scores.length) :=
  (List.reverse_perm _).trans (sortBy_perm _ _)

theorem argsortDesc_nodup (scores : List ℚ) : (argsortDesc scores).Nodup :=
  (argsortDesc_perm scores).nodup_iff.mpr (List.nodup_range _)

theorem argsortDesc_pairwise (scores : List ℚ) :
    (argsortDesc scores).Pairwise (fun i j => scores.getD j 0 < scores.getD i 0 ∨
      (scores.getD i 0 = scores.getD j 0 ∧ j < i)) := by
  have hp := pairwise_sortBy (argsortKeyLe scores) (argsortKeyLe_total scores)
    (argsortKeyLe_trans scores) (List.range scores.length)
  have hsorted : (argsortDesc scores).Pairwise (fun i j => argsortKeyLe scores j i = true) := by
    unfold argsortDesc
    exact (List.pairwise_reverse).mpr hp
  have hnd := argsortDesc_nodup scores
  refine (hsorted.and hnd).imp ?_
  rintro i j ⟨hle, hne⟩
  simp only [argsortKeyLe, decide_eq_true_eq] at hle
  rcases hle with h | ⟨h, hij⟩
  · exact Or.inl h
  · exact Or.inr ⟨h.symm, lt_of_le_of_ne hij (fun hji => hne hji.symm)⟩

theorem selectedIndices_sublist (scores : List ℚ) (k : Nat) :
    (selectedIndices scores k).Sublist (argsortDesc scores) :=
  (List.takeWhile_sublist _).trans (List.take_sublist _ _)

theorem selectedIndices_length (scores : List ℚ) (k : Nat) :
    (selectedIndices scores k).length ≤ k :=
  le_trans (List.Sublist.length_le (List.takeWhile_sublist _)) (List.length_take_le _ _)

theorem selectedIndices_pos (scores : List ℚ) (k : Nat) (i : Nat)
    (h : i ∈ selectedIndices scores k) : 0 < scores.getD i 0 := by
  have := List.mem_takeWhile_imp h
  simpa using this

theorem selectedIndices_pairwise (scores : List ℚ) (k : Nat) :
    (selectedIndices scores k).Pairwise (fun i j => scores.getD j 0 < scores.getD i 0 ∨
      (scores.getD i 0 = scores.getD j 0 ∧ j < i)) :=
  (argsortDesc_pairwise scores).sublist (selectedIndices_sublist scores k)

theorem blend_records (st : PropertyMemoryState) (text : String) (t : List ℚ) :
    (blendWithEmbeddings st text t).2.records = st.records := by
  unfold blendWithEmbeddings
  split
  · rfl
  · split <;> rfl

theorem enum_map_snd_comp {γ : Type} (l : List Nat) (f : Nat → γ) :
    l.enum.map (fun p => f p.2) = l.map f := by
  have h1 : (fun p : Nat × Nat => f p.2) = f ∘ Prod.snd := rfl
  rw [h1, ← List.map_map, List.enum_map_snd]

theorem search_map_address (st : PropertyMemoryState) (text : String) (k : Nat) :
    (search st text k).1.map PropertyMatch.address =
      (selectedIndices (searchScores st text) k).map
        (fun i => (st.records.getD i emptyRecord).address) := by
  unfold search searchScores
  split
  · simp [selectedIndices, argsortDesc, sortBy]
  · dsimp only
    rw [blend_records]
    unfold buildMatches
    split
    · rename_i hemp
      rw [List.isEmpty_iff.mp hemp]
      simp [selectedIndices, argsortDesc, sortBy]
    · rw [List.map_map]
      show (selectedIndices (blendWithEmbeddings st text (st.tfidf_scores text)).1 k).enum.map
          (fun p => (st.records.getD p.2 emptyRecord).address) = _
      exact enum_map_snd_comp
        (selectedIndices ((blendWithEmbeddings st text (st.tfidf_scores text)).1) k)
        (fun i => (st.records.getD i emptyRecord).address)

theorem mem_buildMatches_confidence (records : List PropertyRecord) (scores : List ℚ)
    (k : Nat) (reason : String) (m : PropertyMatch) (h : m ∈ buildMatches records scores k reason) :
    0 ≤ m.confidence ∧ m.confidence ≤ 1 := by
  unfold buildMatches at h
  split at h
  · simp at h
  · obtain ⟨pi, hpi, rfl⟩ := List.mem_map.mp h
    refine ⟨le_max_left 0 _, max_le (by norm_num) (min_le_left 1 _)⟩

theorem mem_search_confidence (st : PropertyMemoryState) (text : String) (k : Nat)
    (m : PropertyMatch) (h : m ∈ (search st text k).1) :
    0 ≤ m.confidence ∧ m.confidence ≤ 1 := by
  unfold search at h
  split at h
  · simp at h
  · exact mem_buildMatches_confidence _ _ _ _ _ h

theorem resolveLoop_invariant (st : PropertyMemoryState) (expected : Nat) (minc : ℚ)
    (cands seen : List String) (found : List PropertyMatch) (unresolved : List String)
    (hconf : ∀ m ∈ found, 0 ≤ m.confidence ∧ m.confidence ≤ 1)
    (hnd : (found.map PropertyMatch.address).Nodup)
    (hseen : ∀ m ∈ found, m.address ∈ seen) :
    (∀ m ∈ (resolveLoop st expected minc cands seen found unresolved).1,
        0 ≤ m.confidence ∧ m.confidence ≤ 1) ∧
      ((resolveLoop st expected minc cands seen found unresolved).1.map
        PropertyMatch.address).Nodup ∧
      (∀ m ∈ (resolveLoop st expected minc cands seen found unresolved).1,
        m.address ∈ (resolveLoop st expected minc cands seen found unresolved).2.2.1) := by
  induction cands generalizing st seen found unresolved with
  | nil => exact ⟨hconf, hnd, hseen⟩
  | cons candidate rest ih =>
    unfold resolveLoop
    dsimp only
    cases hh : (search st candidate 1).1.head? with
    | none => exact ih _ _ _ _ hconf hnd hseen
    | some m =>
      dsimp only
      split
      · exact ih _ _ _ _ hconf hnd hseen
      · rename_i hg
        have hnotseen : m.address ∉ seen := fun hmem =>
          hg (Or.inr (List.elem_iff.mpr hmem))
        have hm : m ∈ (search st candidate 1).1 := List.mem_of_mem_head? hh
        have hmc := mem_search_confidence st candidate 1 m hm
        have hconf' : ∀ x ∈ found ++
            [{ m with rank := found.length + 1,
                      reason := m.reason ++ " (from \x27" ++ candidate ++ "\x27)" }],
            0 ≤ x.confidence ∧ x.confidence ≤ 1 := by
          intro x hx
          rcases List.mem_append.mp hx with hx | hx
          · exact hconf x hx
          · rcases List.mem_singleton.mp hx with rfl
            exact hmc
        have hnd' : ((found ++
            [{ m with rank := found.length + 1,
                      reason := m.reason ++ " (from \x27" ++ candidate ++ "\x27)" }]).map
              PropertyMatch.address).Nodup := by
          rw [List.map_append]
          refine List.Nodup.append hnd (List.nodup_singleton _) ?_
          intro a ha hb
          rcases List.mem_map.mp ha with ⟨x, hx, rfl⟩
          have hax : x.address = m.address := by simpa using hb
          exact hnotseen (hax ▸ hseen x hx)
        have hseen' : ∀ x ∈ found ++
            [{ m with rank := found.length + 1,
                      reason := m.reason ++ " (from \x27" ++ candidate ++ "\x27)" }],
            x.address ∈ seen ++ [m.address] := by
          intro x hx
          rcases List.mem_append.mp hx with hx | hx
          · exact List.mem_append_left _ (hseen x hx)
          · rcases List.mem_singleton.mp hx with rfl
            exact List.mem_append_right _ (List.mem_cons_self _ _)
        split
        · exact ⟨hconf', hnd', hseen'⟩
        · exact ih _ _ _ _ hconf' hnd' hseen'

theorem fillerLoop_invariant (expected : Nat) (minc : ℚ) (fill : List PropertyMatch)
    (seen : List String) (found : List PropertyMatch)
    (hfill : ∀ m ∈ fill, 0 ≤ m.confidence ∧ m.confidence ≤ 1)
    (hconf : ∀ m ∈ found, 0 ≤ m.confidence ∧ m.confidence ≤ 1)
    (hnd : (found.map PropertyMatch.address).Nodup)
    (hseen : ∀ m ∈ found, m.address ∈ seen) :
    (∀ m ∈ fillerLoop expected minc fill seen found,
        0 ≤ m.confidence ∧ m.confidence ≤ 1) ∧
      ((fillerLoop expected minc fill seen found).map PropertyMatch.address).Nodup := by
  induction fill generalizing seen found with
  | nil => exact ⟨hconf, hnd⟩
  | cons m rest ih =>
    unfold fillerLoop
    dsimp only
    split
    · exact ih _ _ (fun x hx => hfill x (List.mem_cons_of_mem _ hx)) hconf hnd hseen
    · split
      · exact ih _ _ (fun x hx => hfill x (List.mem_cons_of_mem _ hx)) hconf hnd hseen
      · rename_i hgseen hgconf
        have hnotseen : m.address ∉ seen := fun hmem => hgseen (List.elem_iff.mpr hmem)
        have hmc := hfill m (List.mem_cons_self _ _)
        have hconf' : ∀ x ∈ found ++
            [{ m with rank := found.length + 1,
                      reason := m.reason ++ " (fallback from full query)" }],
            0 ≤ x.confidence ∧ x.confidence ≤ 1 := by
          intro x hx
          rcases List.mem_append.mp hx with hx | hx
          · exact hconf x hx
          · rcases List.mem_singleton.mp hx with rfl
            exact hmc
        have hnd' : ((found ++
            [{ m with rank := found.length + 1,
                      reason := m.reason ++ " (fallback from full query)" }]).map
              PropertyMatch.address).Nodup := by
          rw [List.map_append]
          refine List.Nodup.append hnd (List.nodup_singleton _) ?_
          intro a ha hb
          rcases List.mem_map.mp ha with ⟨x, hx, rfl⟩
          have hax : x.address = m.address := by simpa using hb
          exact hnotseen (hax ▸ hseen x hx)
        have hseen' : ∀ x ∈ found ++
            [{ m with rank := found.length + 1,
                      reason := m.reason ++ " (fallback from full query)" }],
            x.address ∈ seen ++ [m.address] := by
          intro x hx
          rcases List.mem_append.mp hx with hx | hx
          · exact List.mem_append_left _ (hseen x hx)
          · rcases List.mem_singleton.mp hx with rfl
            exact List.mem_append_right _ (List.mem_cons_self _ _)
        split
        · exact ⟨hconf', hnd'⟩
        · exact ih _ _ (fun x hx => hfill x (List.mem_cons_of_mem _ hx)) hconf' hnd' hseen'

/-! ## Claim theorems -/

/-- C1.  Hard-rule precedence: whenever the baseline pass finds a P&L
keyword (`has_pnl`), a property reference (`has_property`: an extracted
address or a tenant pattern) and a period or validated two-period comparison
(`has_period`), `classify` returns request type `"pnl"` — for every
behaviour of the regex primitives and regardless of any external-model
suggestion (`llm_result`). -/
theorem classify_hard_rule_precedence (env : ClassifierTextEnv)
    (llm_result : Option ClassificationResult) (user_input : String)
    (h1 : (baselineClassification env user_input).2.has_pnl = true)
    (h2 : (baselineClassification env user_input).2.has_property = true)
    (h3 : (baselineClassification env user_input).2.has_period = true) :
    (classifyLayer env llm_result user_input).request_type = "pnl" := by
  unfold classifyLayer
  rw [computeMissingFields_request_type]
  exact applyOverrides_hard_rule _ _ _ _ h1 h2 h3

/-- C1 witness: a definitional-sounding P&L question about a concrete
building and year is classified `"pnl"` even though the external model
suggested `"general"`. -/
theorem classify_hard_rule_precedence_witness :
    (baselineClassification envC1 textC1).2.has_pnl = true ∧
    (baselineClassification envC1 textC1).2.has_property = true ∧
    (baselineClassification envC1 textC1).2.has_period = true ∧
    (classifyLayer envC1 (some llmC1) textC1).request_type = "pnl" :=
  ⟨by decide, by decide, by decide,
    classify_hard_rule_precedence envC1 (some llmC1) textC1 (by decide) (by decide) (by decide)⟩

/-- C2.  Single-question invariant: the supervisor never grows
`clarifications` (a new-request analysis leaves it untouched; a follow-up
pops, clears, or keeps the single pending item), so any sequence of
`analyze` calls preserves `len(context.clarifications) ≤ 1`. -/
theorem supervisor_single_question_invariant (env : SupervisorEnv) (ctx : QueryContext)
    (inputs : List String) (h : ctx.clarifications.length ≤ 1) :
    ((inputs.foldl (analyzeStep env) ctx).clarifications.length ≤ 1) := by
  induction inputs generalizing ctx with
  | nil => simpa using h
  | cons i rest ih =>
    rw [List.foldl_cons]
    apply ih
    calc (analyzeStep env ctx i).clarifications.length
        ≤ ({ ctx with user_input := i } : QueryContext).clarifications.length :=
          analyze_clarifications_length env _
      _ ≤ 1 := h

/-- C2 witness: a three-turn sequence starting from a context with one
pending clarification stays within the single-question bound. -/
theorem supervisor_single_question_invariant_witness :
    ctxC2.clarifications.length ≤ 1 ∧
      ((["year", "2025", ""].foldl (analyzeStep envTriv) ctxC2).clarifications.length ≤ 1) :=
  ⟨by decide,
    supervisor_single_question_invariant envTriv ctxC2 ["year", "2025", ""] (by decide)⟩

/-- C9.  Blank follow-up answers are non-advancing: with one pending item
and a whitespace-only message, `analyze` returns the context completely
unchanged (same pending item, still awaiting a reply, every other field
intact) and the emitted decision still carries the pending item. -/
theorem blank_follow_up_frame (env : SupervisorEnv) (ctx : QueryContext)
    (item : ClarificationItem) (h1 : ctx.awaiting_user_reply = true)
    (h2 : ctx.clarifications = [item]) (h3 : pyStrip ctx.user_input = "") :
    (analyze env ctx).2 = ctx ∧ (analyze env ctx).1.clarifications = [item] ∧
      (analyze env ctx).1.awaiting_user_reply = true := by
  have hcond : (ctx.awaiting_user_reply ∧ ¬ctx.clarifications.isEmpty) := by
    rw [h1, h2]
    exact ⟨rfl, by simp⟩
  have hctx : ({ ctx with awaiting_user_reply := true } : QueryContext) = ctx := by
    cases ctx
    simp_all
  have hlast : ctx.clarifications.getLast? = some item := by
    rw [h2]
    rfl
  unfold analyze handleFollowUp
  rw [if_pos hcond, hlast]
  dsimp only
  rw [if_pos h3]
  exact ⟨hctx, h2, rfl⟩

/-- C9 witness: a whitespace-only reply to a pending period question leaves
the concrete context untouched. -/
theorem blank_follow_up_frame_witness :
    (analyze envTriv ctxC9).2 = ctxC9 ∧
      (analyze envTriv ctxC9).1.clarifications = [itemPeriod] ∧
      (analyze envTriv ctxC9).1.awaiting_user_reply = true :=
  blank_follow_up_frame envTriv ctxC9 itemPeriod rfl rfl (by decide)

/-- C4 counterexample.  The claim states that the follow-up path recomputes
the missing requirements with the `NEW`-path per-request-type rules (for pnl:
`aggregation_level` only when the grain is year-level, a property is known
and no tenant is specified).  Answering a pending period question with
"March 2025" (a month-level period) for a known property yields a context on
which those rules require nothing, yet the follow-up recomputation demands
`aggregation_level`: `_compute_missing_requirements` drops the year-grain
condition entirely. -/
theorem followup_missing_requirements_counterexample :
    (analyze envC4 ctxC4).1.missing_requirements = ["aggregation_level"] ∧
      specNewPathPnlMissing (analyze envC4 ctxC4).2 = [] ∧
      (analyze envC4 ctxC4).1.missing_requirements ≠
        specNewPathPnlMissing (analyze envC4 ctxC4).2 :=
  ⟨by decide, by decide, by decide⟩

/-- C4 (amended).  What the follow-up recomputation actually requires for a
pnl context: `"property"` exactly when no property name is set, `"period"`
exactly when no period field is set, `"comparison_periods"` exactly when the
comparison list is non-empty with length ≠ 2, and `"aggregation_level"`
exactly when no tenant is set and no aggregation level is chosen —
regardless of the period grain and of whether a property is known. -/
theorem followup_missing_characterization (ctx : QueryContext)
    (h : ctx.request_type = .pnl) :
    ("property" ∈ computeMissingRequirements ctx ↔ truthyStr ctx.property_name = false) ∧
      ("period" ∈ computeMissingRequirements ctx ↔ hasPeriodCtx ctx = false) ∧
      ("comparison_periods" ∈ computeMissingRequirements ctx ↔
        (¬ctx.comparison_periods.isEmpty ∧ ctx.comparison_periods.length ≠ 2)) ∧
      ("aggregation_level" ∈ computeMissingRequirements ctx ↔
        (truthyStr ctx.tenant_name = false ∧ ctx.aggregation_level = none)) := by
  unfold computeMissingRequirements
  rw [h]
  simp only [mem_dedup]
  split_ifs <;> simp_all

/-- C4 witness: on a bare pnl context the follow-up recomputation demands
both a period and an aggregation level. -/
theorem followup_missing_characterization_witness :
    "period" ∈ computeMissingRequirements ctxC4w ∧
      "aggregation_level" ∈ computeMissingRequirements ctxC4w :=
  ⟨(followup_missing_characterization ctxC4w rfl).2.1.mpr (by decide),
   (followup_missing_characterization ctxC4w rfl).2.2.2.mpr (by decide)⟩

theorem mem_ite_append_left {x : String} {P : Prop} [Decidable P] {m : List String}
    (l2 : List String) (h : x ∈ m) : x ∈ (if P then m ++ l2 else m) := by
  by_cases hc : P
  · rw [if_pos hc]
    exact List.mem_append_left _ h
  · rwa [if_neg hc]

theorem mem_ite_append_self {x : String} {P : Prop} [Decidable P] (hP : P)
    (m : List String) : x ∈ (if P ∧ ¬m.contains x then m ++ [x] else m) := by
  by_cases hc : m.contains x
  · rw [if_neg (by simp [hc]; exact fun _ => List.elem_iff.mp hc)]
    exact List.elem_iff.mp hc
  · rw [if_pos ⟨hP, fun hcc => hc hcc⟩]
    exact List.mem_append_right _ (List.mem_cons_self _ _)

theorem mem_newRequestMissing_comparison (request_type : RequestType)
    (addresses : List String) (period : Option String) (year : Option Int)
    (quarter month period_level property_name tenant_name : Option String)
    (comparison_periods : List PeriodPayload) (explicit_count : Nat)
    (resolved_empty : Bool) (missing : List String)
    (h1 : comparison_periods ≠ []) (h2 : comparison_periods.length ≠ 2) :
    "comparison_periods" ∈ newRequestMissing request_type addresses period year quarter
      month period_level property_name tenant_name comparison_periods explicit_count
      resolved_empty missing := by
  have hne : ¬comparison_periods.isEmpty = true := by
    simpa [List.isEmpty_iff] using h1
  unfold newRequestMissing
  dsimp only
  rw [mem_dedup, if_pos hne]
  exact mem_ite_append_left _ (mem_ite_append_left _ (mem_ite_append_self h2 _))

/-- C6 (amended).  An invalid comparison shape (non-empty comparison list of
length ≠ 2) always surfaces as the missing requirement
`"comparison_periods"`: unconditionally on the new-request path, and on the
follow-up recomputation whenever the context's request type is pnl.  Both
paths are total functions of the modelled state — the invalid shape raises
no exception. -/
theorem comparison_shape_missing_requirement :
    (∀ (env : SupervisorEnv) (ctx : QueryContext),
        (classifyNewRequest env ctx).comparison_periods ≠ [] →
        (classifyNewRequest env ctx).comparison_periods.length ≠ 2 →
        "comparison_periods" ∈ (classifyNewRequest env ctx).missing_requirements) ∧
      (∀ ctx : QueryContext, ctx.request_type = .pnl → ctx.comparison_periods ≠ [] →
        ctx.comparison_periods.length ≠ 2 →
        "comparison_periods" ∈ computeMissingRequirements ctx) := by
  constructor
  · intro env ctx h1 h2
    simp only [classifyNewRequest] at h1 h2 ⊢
    exact mem_newRequestMissing_comparison _ _ _ _ _ _ _ _ _ _ _ _ _ h1 h2
  · intro ctx h h1 h2
    have hne : ¬ctx.comparison_periods.isEmpty = true := by
      simpa [List.isEmpty_iff] using h1
    unfold computeMissingRequirements
    rw [h]
    simp [mem_dedup, hne, h2]

/-- C6 witness: a classifier suggestion carrying exactly one comparison
period flows into a one-entry comparison list and the missing requirement is
flagged on both paths. -/
theorem comparison_shape_missing_requirement_witness :
    "comparison_periods" ∈ (classifyNewRequest envC6 ctxC6).missing_requirements ∧
      "comparison_periods" ∈ computeMissingRequirements ctxC6w :=
  ⟨comparison_shape_missing_requirement.1 envC6 ctxC6 (by decide) (by decide),
   comparison_shape_missing_requirement.2 ctxC6w rfl (by decide) (by decide)⟩

/-- C6 counterexample.  On the follow-up path the guarantee fails for
non-pnl contexts: an `asset_details` context carrying a one-entry
comparison-period list whose pending property question gets answered ends up
with an empty missing-requirements list even though its comparison list is
non-empty with length 1 ≠ 2. -/
theorem comparison_shape_counterexample :
    (analyze envC6cx ctxC6cx).1.comparison_periods.length = 1 ∧
      (analyze envC6cx ctxC6cx).1.missing_requirements = [] :=
  ⟨by decide, by decide⟩

/-- C5 (amended).  `search` returns at most `top_k` matches, drawn (in
order) from the indices `selectedIndices`, every selected index carries a
strictly positive similarity score, and the selection is ordered by strictly
descending score with equal scores broken in favour of the record inserted
later into the catalog (the reversal of a stable ascending argsort puts the
higher index first on ties). -/
theorem search_ranking_properties (st : PropertyMemoryState) (text : String) (k : Nat) :
    ((search st text k).1.map PropertyMatch.address =
      (selectedIndices (searchScores st text) k).map
        (fun i => (st.records.getD i emptyRecord).address)) ∧
      (search st text k).1.length ≤ k ∧
      (∀ i ∈ selectedIndices (searchScores st text) k, 0 < (searchScores st text).getD i 0) ∧
      (selectedIndices (searchScores st text) k).Pairwise
        (fun i j => (searchScores st text).getD j 0 < (searchScores st text).getD i 0 ∨
          ((searchScores st text).getD i 0 = (searchScores st text).getD j 0 ∧ j < i)) := by
  refine ⟨search_map_address st text k, ?_, ?_, ?_⟩
  · have hlen : (search st text k).1.length =
        (selectedIndices (searchScores st text) k).length := by
      have := congrArg List.length (search_map_address st text k)
      simpa using this
    rw [hlen]
    exact selectedIndices_length _ _
  · exact fun i hi => selectedIndices_pos _ _ i hi
  · exact selectedIndices_pairwise _ _

/-- C5 witness: concrete instantiation of the ranking properties on the
tied two-record catalog. -/
theorem search_ranking_properties_witness :
    (search memTie "Building" 2).1.length ≤ 2 ∧
      0 < (searchScores memTie "Building").getD 1 0 :=
  ⟨(search_ranking_properties memTie "Building" 2).2.1,
    (search_ranking_properties memTie "Building" 2).2.2.1 1
      (by
        rw [show searchScores memTie "Building" = [1, 1] from rfl]
        norm_num [selectedIndices, argsortDesc, argsortKeyLe, sortBy, insertBy,
          List.range_succ])⟩

/-- C5 counterexample.  With two records whose similarity scores tie,
`search` ranks the later-inserted record first: the claim's tie-break
("in favor of the record inserted earlier") is the reverse of what
`np.argsort(scores)[::-1]` produces. -/
theorem search_tie_break_counterexample :
    (search memTie "Building" 2).1.map PropertyMatch.address =
        ["Building 200", "Building 100"] ∧
      (search memTie "Building" 2).1.map PropertyMatch.address ≠
        ["Building 100", "Building 200"] := by
  have h : (search memTie "Building" 2).1.map PropertyMatch.address =
      ["Building 200", "Building 100"] := by
    rw [search_map_address]
    have hs : searchScores memTie "Building" = [1, 1] := rfl
    rw [hs]
    norm_num [memTie, selectedIndices, argsortDesc, argsortKeyLe, sortBy, insertBy,
      List.range_succ]
  exact ⟨h, by rw [h]; decide⟩

/-- C8.  Every match produced by `search` or `resolve_mentions` carries a
confidence in [0,1] (`_build_matches` clamps the rounded score), and within
one `resolve_mentions` result no two matches share an address (the
`seen_addresses` gate). -/
theorem match_confidence_bound_and_dedup :
    (∀ (st : PropertyMemoryState) (text : String) (k : Nat) (m : PropertyMatch),
        m ∈ (search st text k).1 → 0 ≤ m.confidence ∧ m.confidence ≤ 1) ∧
      (∀ (st : PropertyMemoryState) (text : String) (expected : Nat) (minc : ℚ)
          (m : PropertyMatch),
        m ∈ (resolveMentions st text expected minc).1.matches' →
          0 ≤ m.confidence ∧ m.confidence ≤ 1) ∧
      (∀ (st : PropertyMemoryState) (text : String) (expected : Nat) (minc : ℚ),
        ((resolveMentions st text expected minc).1.matches'.map
          PropertyMatch.address).Nodup) := by
  have hres : ∀ (st : PropertyMemoryState) (text : String) (expected : Nat) (minc : ℚ),
      (∀ m ∈ (resolveMentions st text expected minc).1.matches',
          0 ≤ m.confidence ∧ m.confidence ≤ 1) ∧
        ((resolveMentions st text expected minc).1.matches'.map
          PropertyMatch.address).Nodup := by
    intro st text expected minc
    unfold resolveMentions
    split
    · exact ⟨fun m hm => by simp at hm, by simp⟩
    · dsimp only
      have hloop := resolveLoop_invariant st expected minc (st.extract_candidate_terms text)
        [] [] [] (by simp) (by simp) (by simp)
      split
      · dsimp only
        have hfill := fillerLoop_invariant expected minc
          (search (resolveLoop st expected minc (st.extract_candidate_terms text)
            [] [] []).2.2.2 text
            (expected - (resolveLoop st expected minc (st.extract_candidate_terms text)
              [] [] []).1.length)).1
          (resolveLoop st expected minc (st.extract_candidate_terms text) [] [] []).2.2.1
          (resolveLoop st expected minc (st.extract_candidate_terms text) [] [] []).1
          (fun m hm => mem_search_confidence _ text _ m hm) hloop.1 hloop.2.1 hloop.2.2
        exact ⟨hfill.1, hfill.2⟩
      · exact ⟨hloop.1, hloop.2.1⟩
  exact ⟨fun st text k m hm => mem_search_confidence st text k m hm,
    fun st text e c m hm => (hres st text e c).1 m hm,
    fun st text e c => (hres st text e c).2⟩

/-- C8 witness: the single match of the one-record catalog has confidence 1
and the concrete `resolve_mentions` address list is duplicate-free. -/
theorem match_confidence_bound_and_dedup_witness :
    (0 ≤ matchOne.confidence ∧ matchOne.confidence ≤ 1) ∧
      ((resolveMentions memOne "Building 300" 2 (12/100)).1.matches'.map
        PropertyMatch.address).Nodup :=
  ⟨match_confidence_bound_and_dedup.1 memOne "Building 300" 1 matchOne
      (by
        rw [show (search memOne "Building 300" 1).1 = [matchOne] by
          norm_num [search, memOne, blendWithEmbeddings, buildMatches, selectedIndices,
            argsortDesc, argsortKeyLe, sortBy, insertBy, reasonLabel, round4,
            roundHalfEvenInt, matchOne, emptyRecord, List.range_succ, String.reduceEq]
          simp]
        exact List.mem_cons_self _ _),
    match_confidence_bound_and_dedup.2.2 memOne "Building 300" 2 (12/100)⟩

theorem blend_of_disabled (st : PropertyMemoryState) (text : String) (t : List ℚ)
    (h : st.use_embeddings = false) : blendWithEmbeddings st text t = (t, st) := by
  unfold blendWithEmbeddings
  simp [h]

theorem search_state_of_disabled (st : PropertyMemoryState) (text : String) (k : Nat)
    (h : st.use_embeddings = false) : (search st text k).2 = st := by
  unfold search
  split
  · rfl
  · rw [blend_of_disabled st text _ h]

theorem resolveLoop_state_of_disabled (st : PropertyMemoryState) (e : Nat) (c : ℚ)
    (cands seen : List String) (found : List PropertyMatch) (unres : List String)
    (h : st.use_embeddings = false) :
    (resolveLoop st e c cands seen found unres).2.2.2 = st := by
  induction cands generalizing seen found unres with
  | nil => rfl
  | cons candidate rest ih =>
    unfold resolveLoop
    dsimp only
    rw [search_state_of_disabled st candidate 1 h]
    cases (search st candidate 1).1.head? with
    | none => exact ih _ _ _
    | some m =>
      dsimp only
      split
      · exact ih _ _ _
      · split
        · rfl
        · exact ih _ _ _

theorem resolveMentions_state_of_disabled (st : PropertyMemoryState) (text : String)
    (e : Nat) (c : ℚ) (h : st.use_embeddings = false) :
    (resolveMentions st text e c).2 = st := by
  unfold resolveMentions
  split
  · rfl
  · dsimp only
    rw [resolveLoop_state_of_disabled st e c _ _ _ _ h]
    split
    · dsimp only
      rw [search_state_of_disabled st text _ h]
    · rfl

/-- C7 (amended).  `resolve_mentions` is idempotent whenever the embedding
blend is disabled (`_use_embeddings = False`): the call leaves the memory
state untouched, so an immediate second call with the same arguments returns
the identical result. -/
theorem resolve_mentions_idempotent_without_embeddings (st : PropertyMemoryState)
    (text : String) (expected : Nat) (minc : ℚ) (h : st.use_embeddings = false) :
    (resolveMentions ((resolveMentions st text expected minc).2) text expected minc).1 =
      (resolveMentions st text expected minc).1 := by
  rw [resolveMentions_state_of_disabled st text expected minc h]

/-- C7 witness: the idempotence equality instantiated on the concrete
TF-IDF-only catalog. -/
theorem resolve_mentions_idempotent_witness :
    (resolveMentions ((resolveMentions memTie "Building 100" 2 (12/100)).2)
        "Building 100" 2 (12/100)).1 =
      (resolveMentions memTie "Building 100" 2 (12/100)).1 :=
  resolve_mentions_idempotent_without_embeddings memTie "Building 100" 2 (12/100) rfl

theorem memEmb_blend_c :
    blendWithEmbeddings memEmb "c" (memEmb.tfidf_scores "c") = ([13/25, 9/50], memEmb) := by
  have h1 : memEmb.tfidf_scores "c" = [2/10, 3/10] := rfl
  have h2 : memEmb.embed_cosine "c" = some [1, -1] := rfl
  have hu : memEmb.use_embeddings = true := rfl
  unfold blendWithEmbeddings
  rw [h1, h2, hu]
  norm_num

theorem memEmb_buildMatches_c : buildMatches memEmb.records [13/25, 9/50] 1
    "Hybrid similarity (tf-idf + embeddings)" = [mAmatch] := by
  have hrec : memEmb.records = [{ address := "Building A" }, { address := "Building B" }] := rfl
  rw [hrec]
  norm_num [buildMatches, selectedIndices, argsortDesc, argsortKeyLe, sortBy, insertBy,
    round4, roundHalfEvenInt, emptyRecord, mAmatch, List.range_succ]

theorem memEmb_search_c : search memEmb "c" 1 = ([mAmatch], memEmb) := by
  unfold search
  rw [if_neg (by decide)]
  dsimp only
  rw [memEmb_blend_c]
  dsimp only
  rw [show reasonLabel memEmb = "Hybrid similarity (tf-idf + embeddings)" from rfl]
  exact congrArg (fun l => (l, memEmb)) memEmb_buildMatches_c

theorem memEmb_search_q : search memEmb "q" 1 = ([], memEmbOff) := by
  unfold search
  rw [if_neg (by decide)]
  dsimp only
  rw [show memEmb.tfidf_scores "q" = [0, 0] from rfl]
  rw [show blendWithEmbeddings memEmb "q" [0, 0] = ([0, 0], memEmbOff) by
    unfold blendWithEmbeddings
    rw [show memEmb.embed_cosine "q" = none from rfl,
      show memEmb.use_embeddings = true from rfl]
    norm_num [memEmbOff]]
  dsimp only
  rw [show memEmbOff.records = [{ address := "Building A" }, { address := "Building B" }] from rfl]
  rw [show reasonLabel memEmbOff = "TF-IDF similarity" from rfl]
  norm_num [buildMatches, selectedIndices, argsortDesc, argsortKeyLe, sortBy, insertBy,
    List.range_succ]

theorem memEmb_loop : resolveLoop memEmb 2 (12/100) ["c"] [] [] [] =
    ([mAresolved], [], ["Building A"], memEmb) := by
  unfold resolveLoop
  rw [memEmb_search_c]
  dsimp only
  rw [show ([mAmatch] : List PropertyMatch).head? = some mAmatch from rfl]
  dsimp only
  rw [if_neg (by norm_num [mAmatch])]
  rw [if_neg (by simp)]
  unfold resolveLoop
  rfl

theorem memEmb_resolve : resolveMentions memEmb "q" 2 (12/100) =
    ({ query := "q", matches' := [mAresolved], candidate_terms := ["c"],
       unresolved_terms := [] }, memEmbOff) := by
  unfold resolveMentions
  rw [if_neg (by decide)]
  rw [show memEmb.extract_candidate_terms "q" = ["c"] from rfl]
  dsimp only
  rw [memEmb_loop]
  dsimp only
  rw [if_pos (by norm_num)]
  rw [show (2 - ([mAresolved] : List PropertyMatch).length) = 1 from rfl, memEmb_search_q]
  rfl

theorem memEmbOff_search_c : search memEmbOff "c" 1 = ([mBmatch], memEmbOff) := by
  unfold search
  rw [if_neg (by decide)]
  dsimp only
  rw [show memEmbOff.tfidf_scores "c" = [2/10, 3/10] from rfl]
  rw [show blendWithEmbeddings memEmbOff "c" [2/10, 3/10] = ([2/10, 3/10], memEmbOff) by
    unfold blendWithEmbeddings
    rw [show memEmbOff.use_embeddings = false from rfl]
    norm_num]
  dsimp only
  rw [show memEmbOff.records = [{ address := "Building A" }, { address := "Building B" }] from rfl]
  rw [show reasonLabel memEmbOff = "TF-IDF similarity" from rfl]
  norm_num [buildMatches, selectedIndices, argsortDesc, argsortKeyLe, sortBy, insertBy,
    round4, roundHalfEvenInt, emptyRecord, mBmatch, List.range_succ]

theorem memEmbOff_search_q : search memEmbOff "q" 1 = ([], memEmbOff) := by
  unfold search
  rw [if_neg (by decide)]
  dsimp only
  rw [show memEmbOff.tfidf_scores "q" = [0, 0] from rfl]
  rw [show blendWithEmbeddings memEmbOff "q" [0, 0] = ([0, 0], memEmbOff) by
    unfold blendWithEmbeddings
    rw [show memEmbOff.use_embeddings = false from rfl]
    norm_num]
  dsimp only
  rw [show memEmbOff.records = [{ address := "Building A" }, { address := "Building B" }] from rfl]
  rw [show reasonLabel memEmbOff = "TF-IDF similarity" from rfl]
  norm_num [buildMatches, selectedIndices, argsortDesc, argsortKeyLe, sortBy, insertBy,
    List.range_succ]

theorem memEmbOff_loop : resolveLoop memEmbOff 2 (12/100) ["c"] [] [] [] =
    ([mBresolved], [], ["Building B"], memEmbOff) := by
  unfold resolveLoop
  rw [memEmbOff_search_c]
  dsimp only
  rw [show ([mBmatch] : List PropertyMatch).head? = some mBmatch from rfl]
  dsimp only
  rw [if_neg (by norm_num [mBmatch])]
  rw [if_neg (by simp)]
  unfold resolveLoop
  rfl

theorem memEmbOff_resolve : resolveMentions memEmbOff "q" 2 (12/100) =
    ({ query := "q", matches' := [mBresolved], candidate_terms := ["c"],
       unresolved_terms := [] }, memEmbOff) := by
  unfold resolveMentions
  rw [if_neg (by decide)]
  rw [show memEmbOff.extract_candidate_terms "q" = ["c"] from rfl]
  dsimp only
  rw [memEmbOff_loop]
  dsimp only
  rw [if_pos (by norm_num)]
  rw [show (2 - ([mBresolved] : List PropertyMatch).length) = 1 from rfl, memEmbOff_search_q]
  rfl

/-- C7 counterexample.  With embeddings enabled, an embedding failure during
the first call (`_blend_with_embeddings` catches the exception and clears
`_use_embeddings`) changes the scores the second call computes: two
successive `resolve_mentions` calls with identical arguments on the same
memory return different matches. -/
theorem resolve_mentions_idempotence_counterexample :
    ((resolveMentions memEmb "q" 2 (12/100)).1.matches'.map PropertyMatch.address =
        ["Building A"]) ∧
      ((resolveMentions ((resolveMentions memEmb "q" 2 (12/100)).2) "q" 2
          (12/100)).1.matches'.map PropertyMatch.address = ["Building B"]) ∧
      (resolveMentions ((resolveMentions memEmb "q" 2 (12/100)).2) "q" 2 (12/100)).1 ≠
        (resolveMentions memEmb "q" 2 (12/100)).1 := by
  rw [memEmb_resolve]
  dsimp only
  rw [memEmbOff_resolve]
  refine ⟨by simp [mAresolved, mAmatch], by simp [mBresolved, mBmatch], ?_⟩
  intro heq
  have := congrArg (fun r => r.matches'.map PropertyMatch.address) heq
  simp [mAresolved, mAmatch, mBresolved, mBmatch] at this

/-- C3.  The claim asserts `tools.extract_comparison_periods` exists; the
`app/tools.py` module defines no function of that name and does not export
it, although `SupervisorAgent._classify_new_request` calls it (and the
repository's own test `test_supervisor_routes_timebound_pnl_comparisons`
exercises that call path). -/
theorem tools_extract_comparison_periods_absent :
    "extract_comparison_periods" ∉ toolsModuleFunctions ∧
      "extract_comparison_periods" ∉ toolsModuleAll := by
  decide

/-- C10.  `percent_difference` returns `none` exactly when the divisor is 0
and the exact formula otherwise; consequently `compare_asset_values` reports
`percent_delta = none` whenever the second property's price is 0 (and its
delta always equals `percent_difference` of the two looked-up prices, so no
division by zero is ever required). -/
theorem percent_difference_guard :
    (∀ a b : ℚ, (percent_difference a b = none ↔ b = 0) ∧
      (b ≠ 0 → percent_difference a b = some ((a - b) / b * 100))) ∧
    (∀ (df : List AssetRow) (address_a address_b : String) (res : AssetComparison),
      compare_asset_values df address_a address_b = .ok res →
        res.percent_delta = percent_difference res.property_a_price res.property_b_price ∧
        (res.property_b_price = 0 → res.percent_delta = none)) := by
  constructor
  · intro a b
    constructor
    · constructor
      · intro h
        by_contra hb
        simp [percent_difference, hb] at h
      · intro h
        simp [percent_difference, h]
    · intro h
      simp [percent_difference, h]
  · intro df address_a address_b res h
    unfold compare_asset_values at h
    cases ha : get_asset_value df address_a with
    | error e => rw [ha] at h; cases h
    | ok value_a =>
      rw [ha] at h
      cases hb : get_asset_value df address_b with
      | error e => rw [hb] at h; cases h
      | ok value_b =>
        rw [hb] at h
        cases h
        constructor
        · rfl
        · intro h0
          simp only [percent_difference, if_pos h0]

/-- C10 witness: on a dataset whose second property has price 0, the
comparison succeeds and reports a `none` percent delta. -/
theorem percent_difference_guard_witness :
    percent_difference 5 0 = none ∧ resC10.percent_delta = none :=
  ⟨(percent_difference_guard.1 5 0).1.mpr rfl,
    (percent_difference_guard.2 dfC10 "123 Main St" "456 Oak Ave" resC10
      (by
        have h1 : get_asset_value dfC10 "123 Main St" = .ok 4 := rfl
        have h2 : get_asset_value dfC10 "456 Oak Ave" = .ok 0 := rfl
        unfold compare_asset_values
        rw [h1, h2]
        norm_num [resC10, percent_difference])).2 rfl⟩

end Cortex
